import Mathlib

/-!
# ieee802154_transceiver: a verification development

A shallow embedding of `src/ieee802154_transceiver.c`.

* The file-scope variables of the C file are the fields of `State`.
* Every call that leaves the file (radio driver, FreeRTOS, user callback) is
  appended to a trace of `Call`s, in program order.
* What such a call returns is not decided by this file, so it is read from an
  environment `Env`; the environment may answer differently depending on
  everything that has been called before.
* The FreeRTOS message buffer is the only library object whose contents the
  claims talk about; it is modelled as a bounded list of messages.
-/

namespace Ieee802154

/-! ## Constants -/

/-- The `esp_err_t` value `ESP_OK`. -/
def ESP_OK : Int := 0

/-- The `esp_err_t` value `ESP_FAIL`. -/
def ESP_FAIL : Int := -1

/-- The `esp_err_t` value `ESP_ERR_NO_MEM`. -/
def ESP_ERR_NO_MEM : Int := 0x101

/-- The `esp_err_t` value `ESP_ERR_INVALID_ARG`. -/
def ESP_ERR_INVALID_ARG : Int := 0x102

/-- The macro `MAX_FRAME_LEN` of the C file. -/
def MAX_FRAME_LEN : Nat := 128

/-- Modelled from the spec: `esp_ieee802154_frame_info_t` is declared by the
radio driver, not by this repository. The spec lists its fields (pending flag,
process flag, channel, RSSI, LQI, timestamp). -/
structure esp_ieee802154_frame_info_t where
  pending : Bool
  process : Bool
  channel : Nat
  rssi : Int
  lqi : Nat
  timestamp : Nat
  deriving DecidableEq, Repr

/-- Bytes of one `esp_ieee802154_frame_info_t` (five one-byte fields, padding,
one 64-bit timestamp). No result below depends on the value. -/
def sizeof_frame_info : Nat := 16

/-- The struct `frame_data_t`: 128 raw bytes and the frame info. -/
structure frame_data_t where
  frame : List Nat
  frame_info : esp_ieee802154_frame_info_t
  deriving DecidableEq, Repr

/-- The value of `sizeof(frame_data_t)`. -/
def sizeof_frame_data_t : Nat := MAX_FRAME_LEN + sizeof_frame_info

/-! ## The FreeRTOS message buffer -/

/-- One message held by a message buffer: its length in bytes and, since every
message this program sends is a `frame_data_t`, the struct it was copied from. -/
structure Message where
  len : Nat
  data : frame_data_t
  deriving DecidableEq, Repr

/-- A message buffer: the handle `xMessageBufferCreate` returned, the number of
bytes it was created with, and the messages not yet received, oldest first. -/
structure MessageBuffer where
  handle : Nat
  size : Nat
  msgs : List Message
  deriving DecidableEq, Repr

/-- Bytes a message of `len` bytes occupies: the data and a 4-byte length word. -/
def message_footprint (len : Nat) : Nat := len + 4

/-- Bytes in use in a message buffer. -/
def MessageBuffer.used (mb : MessageBuffer) : Nat :=
  (mb.msgs.map (fun m => message_footprint m.len)).sum

/-- Free bytes of a message buffer. -/
def MessageBuffer.space (mb : MessageBuffer) : Nat := mb.size - mb.used

/-- FreeRTOS `xMessageBufferSendFromISR`: never blocks; the message is appended
when its footprint fits in the free space and the call returns the number of
bytes sent, otherwise the buffer is untouched and the call returns 0. -/
def xMessageBufferSendFromISR (mb : MessageBuffer) (data : frame_data_t) (len : Nat) :
    Nat × MessageBuffer :=
  if message_footprint len ≤ mb.space then
    (len, { mb with msgs := mb.msgs ++ [{ len := len, data := data }] })
  else
    (0, mb)

/-- FreeRTOS `xMessageBufferReceive` once its timeout is over: an empty buffer
gives nothing; a message longer than the receiving buffer is left where it is
(the call returns 0); otherwise the oldest message is removed and handed over. -/
def xMessageBufferReceive (mb : MessageBuffer) (xBufferLengthBytes : Nat) :
    Option Message × MessageBuffer :=
  match mb.msgs with
  | [] => (none, mb)
  | m :: rest =>
    if m.len ≤ xBufferLengthBytes then (some m, { mb with msgs := rest })
    else (none, mb)

/-! ## Calls that leave the file -/

/-- A call out of `ieee802154_transceiver.c`, with its arguments. `F` is the
type `ieee802154_frame_t`, declared by the frame codec, not by this repository. -/
inductive Call (F : Type) where
  | xMessageBufferCreate (xBufferSizeBytes : Nat)
  | vMessageBufferDelete (handle : Nat)
  | xTaskCreate
  | vTaskDelete (handle : Nat)
  | vTaskDelay
  | portYIELD_FROM_ISR
  | esp_ieee802154_enable
  | esp_ieee802154_disable
  | esp_ieee802154_set_coordinator (enable : Bool)
  | esp_ieee802154_set_promiscuous (enable : Bool)
  | esp_ieee802154_set_rx_when_idle (enable : Bool)
  | esp_ieee802154_set_channel (channel : Nat)
  | esp_ieee802154_receive
  | esp_ieee802154_transmit (frame : List Nat) (cca : Bool)
  | esp_ieee802154_receive_handle_done (frame : Nat)
  | rx_callback (fn : Nat) (frame : F) (frame_info : esp_ieee802154_frame_info_t)
      (user_data : Nat)
  deriving DecidableEq

/-- The calls into the radio driver (`esp_ieee802154_*`). -/
def Call.isDriver {F : Type} : Call F → Bool
  | .esp_ieee802154_enable => true
  | .esp_ieee802154_disable => true
  | .esp_ieee802154_set_coordinator _ => true
  | .esp_ieee802154_set_promiscuous _ => true
  | .esp_ieee802154_set_rx_when_idle _ => true
  | .esp_ieee802154_set_channel _ => true
  | .esp_ieee802154_receive => true
  | .esp_ieee802154_transmit _ _ => true
  | .esp_ieee802154_receive_handle_done _ => true
  | _ => false

/-- Everything called so far, oldest first. -/
abbrev Trace (F : Type) := List (Call F)

/-- What the world outside the file answers. Every answer may depend on the
calls made before it. -/
structure Env (F : Type) where
  /-- Status code `esp_err_t` returned by a driver call. -/
  driver : Trace F → Call F → Int
  /-- Handle returned by `xMessageBufferCreate`; `none` is `NULL`. -/
  xMessageBufferCreate : Trace F → Nat → Option Nat
  /-- Handle written by `xTaskCreate` when it returns `pdPASS`; `none` when it
  fails, in which case FreeRTOS does not write the handle. -/
  xTaskCreate : Trace F → Option Nat
  /-- Whether a send from the interrupt handler woke a higher priority task. -/
  higher_priority_task_woken : Trace F → Bool
  /-- The codec `ieee802154_frame_build(frame, buffer, false)`: given the frame
  and the buffer contents, the returned length and the buffer afterwards. -/
  ieee802154_frame_build : F → List Nat → Nat × List Nat
  /-- The codec `ieee802154_frame_parse(bytes, &frame, false)`: the parsed
  frame, or `none` when it returns false. -/
  ieee802154_frame_parse : List Nat → Option F

/-! ## Global state -/

/-- The file-scope variables. Pointers are `Option`s (`none` is `NULL`);
`message_buffer` carries the buffer the handle points to. -/
structure State where
  message_buffer : Option MessageBuffer
  rx_callback : Option Nat
  rx_callback_user_data : Nat
  rx_task_handle : Option Nat
  radio_enabled : Bool
  transmit_buffer : List Nat
  deriving DecidableEq, Repr

/-- The initial values of the file-scope variables. -/
def State.initial : State where
  message_buffer := none
  rx_callback := none
  rx_callback_user_data := 0
  rx_task_handle := none
  radio_enabled := false
  transmit_buffer := List.replicate MAX_FRAME_LEN 0

/-- What an operation leaves behind: return value, globals, calls made. -/
structure Out (F : Type) where
  ret : Int
  state : State
  trace : Trace F

/-! ## Lifecycle -/

/-- The function `ieee802154_transceiver_deinit`. -/
def ieee802154_transceiver_deinit {F : Type} (env : Env F) (s : State) (t : Trace F) : Out F :=
  -- Stop receive task
  let (s1, t1) : State × Trace F :=
    match s.rx_task_handle with
    | some h => ({ s with rx_task_handle := none }, t ++ [Call.vTaskDelete h])
    | none => (s, t)
  -- Free message buffer
  let (s2, t2) : State × Trace F :=
    match s1.message_buffer with
    | some mb => ({ s1 with message_buffer := none }, t1 ++ [Call.vMessageBufferDelete mb.handle])
    | none => (s1, t1)
  -- Disable radio
  if s2.radio_enabled then
    let ret := env.driver t2 Call.esp_ieee802154_disable
    let t3 := t2 ++ [Call.esp_ieee802154_disable]
    if ret ≠ ESP_OK then
      { ret := ret, state := s2, trace := t3 }
    else
      { ret := ESP_OK, state := { s2 with radio_enabled := false }, trace := t3 }
  else
    { ret := ESP_OK, state := s2, trace := t2 }

/-- The error path of `ieee802154_transceiver_init`: call
`ieee802154_transceiver_deinit()`, drop its result, return `ret`. -/
def init_fail {F : Type} (env : Env F) (ret : Int) (s : State) (t : Trace F) : Out F :=
  let o := ieee802154_transceiver_deinit env s t
  { ret := ret, state := o.state, trace := o.trace }

/-- The function `ieee802154_transceiver_init`. -/
def ieee802154_transceiver_init {F : Type} (env : Env F) (channel : Nat) (s : State)
    (t : Trace F) : Out F :=
  -- Validate channel
  if channel < 11 ∨ channel > 26 then
    { ret := ESP_ERR_INVALID_ARG, state := s, trace := t }
  else
    -- Create message buffer
    let created := env.xMessageBufferCreate t (sizeof_frame_data_t + 4)
    let t1 := t ++ [Call.xMessageBufferCreate (sizeof_frame_data_t + 4)]
    let s1 : State :=
      { s with message_buffer :=
          created.map (fun h => { handle := h, size := sizeof_frame_data_t + 4, msgs := [] }) }
    if s1.message_buffer.isNone then init_fail env ESP_ERR_NO_MEM s1 t1 else
    -- Initialize IEEE 802.15.4 radio
    let ret := env.driver t1 Call.esp_ieee802154_enable
    let t2 := t1 ++ [Call.esp_ieee802154_enable]
    if ret ≠ ESP_OK then init_fail env ret s1 t2 else
    let s2 : State := { s1 with radio_enabled := true }
    let ret := env.driver t2 (Call.esp_ieee802154_set_coordinator false)
    let t3 := t2 ++ [Call.esp_ieee802154_set_coordinator false]
    if ret ≠ ESP_OK then init_fail env ret s2 t3 else
    let ret := env.driver t3 (Call.esp_ieee802154_set_promiscuous true)
    let t4 := t3 ++ [Call.esp_ieee802154_set_promiscuous true]
    if ret ≠ ESP_OK then init_fail env ret s2 t4 else
    let ret := env.driver t4 (Call.esp_ieee802154_set_rx_when_idle true)
    let t5 := t4 ++ [Call.esp_ieee802154_set_rx_when_idle true]
    if ret ≠ ESP_OK then init_fail env ret s2 t5 else
    let ret := env.driver t5 (Call.esp_ieee802154_set_channel channel)
    let t6 := t5 ++ [Call.esp_ieee802154_set_channel channel]
    if ret ≠ ESP_OK then init_fail env ret s2 t6 else
    let ret := env.driver t6 Call.esp_ieee802154_receive
    let t7 := t6 ++ [Call.esp_ieee802154_receive]
    if ret ≠ ESP_OK then init_fail env ret s2 t7 else
    -- Start receive task
    let t8 := t7 ++ [Call.xTaskCreate]
    match env.xTaskCreate t7 with
    | none => init_fail env ESP_ERR_NO_MEM s2 t8
    | some h =>
      { ret := ESP_OK, state := { s2 with rx_task_handle := some h }, trace := t8 }

/-- The function `ieee802154_transceiver_set_rx_callback`. -/
def ieee802154_transceiver_set_rx_callback {F : Type} (callback : Option Nat) (user_data : Nat)
    (s : State) (t : Trace F) : Out F :=
  { ret := ESP_OK
    state := { s with rx_callback := callback, rx_callback_user_data := user_data }
    trace := t }

/-! ## Transmit -/

/-- The function `transmit_channel` (internal). A `NULL` frame pointer is
`none`. -/
def transmit_channel {F : Type} (env : Env F) (frame : Option F) (channel : Nat)
    (change_channel : Bool) (s : State) (t : Trace F) : Out F :=
  match frame with
  | none => { ret := ESP_ERR_INVALID_ARG, state := s, trace := t }
  | some f =>
    if change_channel = true ∧ (channel < 11 ∨ channel > 26) then
      { ret := ESP_ERR_INVALID_ARG, state := s, trace := t }
    else
      -- Prepare buffer: memset(transmit_buffer, 0, MAX_FRAME_LEN)
      let cleared := List.replicate MAX_FRAME_LEN 0
      -- Build frame into a byte array
      let built := env.ieee802154_frame_build f cleared
      let len := built.1
      let s1 : State := { s with transmit_buffer := built.2 }
      if len = 0 then { ret := ESP_FAIL, state := s1, trace := t } else
      -- Transmit frame: the rest of the function, after the calls `t1`
      let transmit_frame : Trace F → Out F := fun t1 =>
        let ret := env.driver t1 (Call.esp_ieee802154_transmit s1.transmit_buffer false)
        let t2 := t1 ++ [Call.esp_ieee802154_transmit s1.transmit_buffer false]
        if ret ≠ ESP_OK then { ret := ret, state := s1, trace := t2 }
        else { ret := ESP_OK, state := s1, trace := t2 }
      if change_channel then
        -- Set channel
        let ret := env.driver t (Call.esp_ieee802154_set_channel channel)
        let t1 := t ++ [Call.esp_ieee802154_set_channel channel]
        if ret ≠ ESP_OK then { ret := ret, state := s1, trace := t1 }
        else transmit_frame t1
      else
        transmit_frame t

/-- The function `ieee802154_transceiver_transmit`. Its `-1` is converted to the
`uint8_t` parameter `channel`. -/
def ieee802154_transceiver_transmit {F : Type} (env : Env F) (frame : Option F) (s : State)
    (t : Trace F) : Out F :=
  transmit_channel env frame (Int.toNat ((-1 : Int) % 256)) false s t

/-- The function `ieee802154_transceiver_transmit_channel`. -/
def ieee802154_transceiver_transmit_channel {F : Type} (env : Env F) (frame : Option F)
    (channel : Nat) (s : State) (t : Trace F) : Out F :=
  transmit_channel env frame channel true s t

/-! ## Channel -/

/-- The function `ieee802154_transceiver_set_channel`. -/
def ieee802154_transceiver_set_channel {F : Type} (env : Env F) (channel : Nat) (s : State)
    (t : Trace F) : Out F :=
  if channel < 11 ∨ channel > 26 then
    { ret := ESP_ERR_INVALID_ARG, state := s, trace := t }
  else
    -- Set channel
    let ret := env.driver t (Call.esp_ieee802154_set_channel channel)
    let t1 := t ++ [Call.esp_ieee802154_set_channel channel]
    if ret ≠ ESP_OK then { ret := ret, state := s, trace := t1 } else
    -- Start receiving
    let ret := env.driver t1 Call.esp_ieee802154_receive
    let t2 := t1 ++ [Call.esp_ieee802154_receive]
    if ret ≠ ESP_OK then { ret := ret, state := s, trace := t2 }
    else { ret := ESP_OK, state := s, trace := t2 }

/-! ## Receive: interrupt side -/

/-- A frame buffer owned by the radio driver: the pointer value and the bytes
it points to (`byte i` is `frame[i]`). -/
structure HwFrame where
  addr : Nat
  byte : Nat → Nat

/-- The C library `memcpy(dst, src, n)` where `dst` is a field of `dst.length`
bytes. First component: the field afterwards. Second component: the bytes the
copy writes beyond the last byte of the field (empty when `n` fits). -/
def memcpy (dst : List Nat) (src : Nat → Nat) (n : Nat) : List Nat × List Nat :=
  let copied := (List.range n).map src
  (copied.take dst.length ++ dst.drop n, copied.drop dst.length)

/-- What the interrupt handler leaves behind. `copied` is the byte count given
to `memcpy`; `beyond` are the bytes that copy wrote past `packet.frame`. -/
structure RxOut (F : Type) where
  state : State
  trace : Trace F
  copied : Nat
  beyond : List Nat

/-- The function `ieee802154_transceiver_handle_receive_done`. The local
`packet` is not initialised in C, so `uninit i` stands for what byte `i` of
`packet.frame` holds on entry. -/
def ieee802154_transceiver_handle_receive_done {F : Type} (env : Env F) (frame : HwFrame)
    (frame_info : esp_ieee802154_frame_info_t) (uninit : Nat → Nat) (s : State)
    (t : Trace F) : RxOut F :=
  match s.message_buffer with
  | none =>
    { state := s, trace := t ++ [Call.esp_ieee802154_receive_handle_done frame.addr],
      copied := 0, beyond := [] }
  | some mb =>
    -- Prepare packet
    let n := frame.byte 0
    let cp := memcpy ((List.range MAX_FRAME_LEN).map uninit) frame.byte n
    let packet : frame_data_t := { frame := cp.1, frame_info := frame_info }
    -- Send to message buffer
    let sent := xMessageBufferSendFromISR mb packet sizeof_frame_data_t
    let bytes_sent := sent.1
    let higher_priority_task_woken := decide (bytes_sent ≠ 0) && env.higher_priority_task_woken t
    let t1 := t ++ [Call.esp_ieee802154_receive_handle_done frame.addr]
    let t2 := if higher_priority_task_woken then t1 ++ [Call.portYIELD_FROM_ISR] else t1
    { state := { s with message_buffer := some sent.2 }, trace := t2,
      copied := n, beyond := cp.2 }

/-! ## Receive: task side -/

/-- One pass through the body of the `while (1)` loop of `receive_packet_task`.
`none`: the loop read through a `NULL` `message_buffer`. -/
def receive_packet_task_iteration {F : Type} (env : Env F) (s : State) (t : Trace F) :
    Option (State × Trace F) :=
  match s.message_buffer with
  | none => none
  | some mb =>
    -- Receive packet from message buffer
    let got := xMessageBufferReceive mb sizeof_frame_data_t
    let s1 : State := { s with message_buffer := some got.2 }
    match got.1 with
    | none => some (s1, t)
    | some m =>
      let read_bytes := m.len
      if read_bytes ≠ sizeof_frame_data_t then some (s1, t) else
      let packet := m.data
      -- Parse frame
      match env.ieee802154_frame_parse packet.frame with
      | none => some (s1, t)
      | some frame =>
        -- Invoke callback if set
        let t1 := match s1.rx_callback with
          | some fn => t ++ [Call.rx_callback fn frame packet.frame_info s1.rx_callback_user_data]
          | none => t
        -- Short delay to yield CPU
        some (s1, t1 ++ [Call.vTaskDelay])

/-- The function `receive_packet_task` cut off after `n` passes of its loop. -/
def receive_packet_task {F : Type} (env : Env F) : Nat → State → Trace F →
    Option (State × Trace F)
  | 0, s, t => some (s, t)
  | n + 1, s, t =>
    match receive_packet_task_iteration env s t with
    | none => none
    | some (s1, t1) => receive_packet_task env n s1 t1

/-! ## Vocabulary of the properties -/

/-- A channel the transceiver accepts. -/
def valid_channel (channel : Nat) : Prop := 11 ≤ channel ∧ channel ≤ 26

instance (channel : Nat) : Decidable (valid_channel channel) := by
  unfold valid_channel; infer_instance

/-- No queue, no dispatch task, radio off. -/
def State.uninitialized (s : State) : Prop :=
  s.message_buffer = none ∧ s.rx_task_handle = none ∧ s.radio_enabled = false

/-- Every driver call and every FreeRTOS creation succeeds. -/
def Env.all_succeed {F : Type} (env : Env F) : Prop :=
  (∀ t c, env.driver t c = ESP_OK) ∧
  (∀ t n, (env.xMessageBufferCreate t n).isSome = true) ∧
  (∀ t, (env.xTaskCreate t).isSome = true)

/-- The test case "IEEE 802.15.4 Transceiver Initialization" repeated `n`
times: init then deinit. Returns every return value seen, then the globals. -/
def init_deinit_cycles {F : Type} (env : Env F) (channel : Nat) :
    Nat → State → Trace F → List Int × State × Trace F
  | 0, s, t => ([], s, t)
  | n + 1, s, t =>
    let o1 := ieee802154_transceiver_init env channel s t
    let o2 := ieee802154_transceiver_deinit env o1.state o1.trace
    let r := init_deinit_cycles env channel n o2.state o2.trace
    (o1.ret :: o2.ret :: r.1, r.2)

/-- The calls `ieee802154_transceiver_init` makes when nothing fails, in order. -/
def init_calls {F : Type} (channel : Nat) : List (Call F) :=
  [ Call.xMessageBufferCreate (sizeof_frame_data_t + 4),
    Call.esp_ieee802154_enable,
    Call.esp_ieee802154_set_coordinator false,
    Call.esp_ieee802154_set_promiscuous true,
    Call.esp_ieee802154_set_rx_when_idle true,
    Call.esp_ieee802154_set_channel channel,
    Call.esp_ieee802154_receive,
    Call.xTaskCreate ]

/-- Whether call `c`, made after the calls `t`, succeeds. -/
def Env.succeeds {F : Type} (env : Env F) (t : Trace F) : Call F → Bool
  | Call.xMessageBufferCreate n => (env.xMessageBufferCreate t n).isSome
  | Call.xTaskCreate => (env.xTaskCreate t).isSome
  | c => decide (env.driver t c = ESP_OK)

/-- The error a failed step stands for: `ESP_ERR_NO_MEM` for the two FreeRTOS
creations, the status code of the driver otherwise. -/
def Env.error_of {F : Type} (env : Env F) (t : Trace F) : Call F → Int
  | Call.xMessageBufferCreate _ => ESP_ERR_NO_MEM
  | Call.xTaskCreate => ESP_ERR_NO_MEM
  | c => env.driver t c

/-- Making `calls` in order after `t`: the first one that fails, together with
the calls made before it. -/
def first_failure {F : Type} (env : Env F) : Trace F → List (Call F) → Option (Trace F × Call F)
  | _, [] => none
  | t, c :: cs => if env.succeeds t c then first_failure env (t ++ [c]) cs else some (t, c)

/-- An environment in which everything succeeds; the codec copies bytes. -/
def env_ok : Env (List Nat) where
  driver := fun _ _ => ESP_OK
  xMessageBufferCreate := fun _ _ => some 1
  xTaskCreate := fun _ => some 2
  higher_priority_task_woken := fun _ => false
  ieee802154_frame_build := fun f _ => (f.length, f)
  ieee802154_frame_parse := fun b => some b

/-- An environment in which the radio can be enabled and nothing else the
driver is asked for succeeds, `esp_ieee802154_disable` included. -/
def env_only_enable : Env (List Nat) where
  driver := fun _ c => if c = Call.esp_ieee802154_enable then ESP_OK else ESP_FAIL
  xMessageBufferCreate := fun _ _ => some 1
  xTaskCreate := fun _ => some 2
  higher_priority_task_woken := fun _ => false
  ieee802154_frame_build := fun f _ => (f.length, f)
  ieee802154_frame_parse := fun b => some b

/-- An environment in which only `esp_ieee802154_set_coordinator` fails. -/
def env_coordinator_fails : Env (List Nat) where
  driver := fun _ c => if c = Call.esp_ieee802154_set_coordinator false then ESP_FAIL else ESP_OK
  xMessageBufferCreate := fun _ _ => some 1
  xTaskCreate := fun _ => some 2
  higher_priority_task_woken := fun _ => false
  ieee802154_frame_build := fun f _ => (f.length, f)
  ieee802154_frame_parse := fun b => some b

/-- The globals after a successful init on channel 11. -/
def state_listening : State :=
  (ieee802154_transceiver_init env_ok 11 State.initial []).state

/-- A received frame whose first byte says 200. -/
def frame_len_200 : HwFrame where
  addr := 0x3FC90000
  byte := fun i => if i = 0 then 200 else 0xAA

/-- A received frame of 5 bytes (length byte included). -/
def frame_len_5 : HwFrame where
  addr := 0x3FC90000
  byte := fun i => if i = 0 then 5 else i

/-- Frame info of a frame heard on channel 11. -/
def frame_info_11 : esp_ieee802154_frame_info_t where
  pending := false
  process := false
  channel := 11
  rssi := -60
  lqi := 200
  timestamp := 1000

/-- The pointers given to `esp_ieee802154_receive_handle_done` in a trace. -/
def released {F : Type} : Trace F → List Nat
  | [] => []
  | Call.esp_ieee802154_receive_handle_done a :: r => a :: released r
  | _ :: r => released r

/-- The queue is absent, or no further `frame_data_t` fits in it. -/
def queue_absent_or_full (s : State) : Prop :=
  match s.message_buffer with
  | none => True
  | some mb => mb.space < message_footprint sizeof_frame_data_t

instance (s : State) : Decidable (queue_absent_or_full s) := by
  unfold queue_absent_or_full; split <;> infer_instance

/-- Number of `frame_data_t` messages a message buffer of `size` bytes holds. -/
def queue_capacity (size : Nat) : Nat := size / message_footprint sizeof_frame_data_t

/-- Number of undelivered messages; 0 without a queue. -/
def queue_length (s : State) : Nat :=
  match s.message_buffer with
  | none => 0
  | some mb => mb.msgs.length

/-- One interrupt: the frame, its info, and what the stack held. -/
structure Arrival where
  frame : HwFrame
  frame_info : esp_ieee802154_frame_info_t
  uninit : Nat → Nat

/-- Interrupts handled one after the other, with no dequeue in between. -/
def rx_arrivals {F : Type} (env : Env F) : List Arrival → State → Trace F → State × Trace F
  | [], s, t => (s, t)
  | a :: rest, s, t =>
    let o := ieee802154_transceiver_handle_receive_done env a.frame a.frame_info a.uninit s t
    rx_arrivals env rest o.state o.trace

/-- The globals after a successful init on channel 11 and one frame relayed
and not yet dequeued. -/
def state_queue_full : State :=
  (ieee802154_transceiver_handle_receive_done env_ok frame_len_5 frame_info_11 (fun _ => 0)
    state_listening []).state

/-- An environment whose driver answers every call with `ESP_ERR_INVALID_ARG`. -/
def env_driver_rejects : Env (List Nat) where
  driver := fun _ _ => ESP_ERR_INVALID_ARG
  xMessageBufferCreate := fun _ _ => some 1
  xTaskCreate := fun _ => some 2
  higher_priority_task_woken := fun _ => false
  ieee802154_frame_build := fun f _ => (f.length, f)
  ieee802154_frame_parse := fun b => some b

/-- An environment whose encoder and decoder always fail. -/
def env_codec_fails : Env (List Nat) where
  driver := fun _ _ => ESP_OK
  xMessageBufferCreate := fun _ _ => some 1
  xTaskCreate := fun _ => some 2
  higher_priority_task_woken := fun _ => false
  ieee802154_frame_build := fun _ b => (0, b)
  ieee802154_frame_parse := fun _ => none

/-- The interrupt for `frame_len_5` heard on channel 11. -/
def arrival_5 : Arrival where
  frame := frame_len_5
  frame_info := frame_info_11
  uninit := fun _ => 0

/-- The user callback invocations in a trace: function, frame, frame info and
user data of each, in order. -/
def invoked {F : Type} : Trace F → List (Nat × F × esp_ieee802154_frame_info_t × Nat)
  | [] => []
  | Call.rx_callback fn frame frame_info user_data :: r =>
    (fn, frame, frame_info, user_data) :: invoked r
  | _ :: r => invoked r

/-- The driver calls in a trace. -/
def driver_calls {F : Type} (t : Trace F) : List (Call F) := t.filter Call.isDriver

/-- The slot the handler builds for `arrival_5`. -/
def slot_5 : Message where
  len := sizeof_frame_data_t
  data :=
    { frame := (memcpy ((List.range MAX_FRAME_LEN).map arrival_5.uninit) arrival_5.frame.byte
        (arrival_5.frame.byte 0)).1,
      frame_info := arrival_5.frame_info }

/-- The queue of `state_queue_full`. -/
def queue_one : MessageBuffer where
  handle := 1
  size := sizeof_frame_data_t + 4
  msgs := [slot_5]

/-- The FreeRTOS calls deinit makes in a state: delete the task if there is
one, then delete the queue if there is one. -/
def release_calls {F : Type} (s : State) : List (Call F) :=
  (match s.rx_task_handle with
    | some h => [Call.vTaskDelete h]
    | none => []) ++
  (match s.message_buffer with
    | some mb => [Call.vMessageBufferDelete mb.handle]
    | none => [])

/-- A call of one of the public functions, with its arguments. -/
inductive Op (F : Type) where
  | init (channel : Nat)
  | deinit
  | set_rx_callback (callback : Option Nat) (user_data : Nat)
  | set_channel (channel : Nat)
  | transmit (frame : Option F)
  | transmit_channel (frame : Option F) (channel : Nat)
  | handle_receive_done (frame : HwFrame) (frame_info : esp_ieee802154_frame_info_t)
      (uninit : Nat → Nat)

/-- The globals and the trace after one public call. -/
def Op.run {F : Type} (env : Env F) (s : State) (t : Trace F) : Op F → State × Trace F
  | Op.init channel =>
    let o := ieee802154_transceiver_init env channel s t
    (o.state, o.trace)
  | Op.deinit =>
    let o := ieee802154_transceiver_deinit env s t
    (o.state, o.trace)
  | Op.set_rx_callback callback user_data =>
    let o := ieee802154_transceiver_set_rx_callback callback user_data s t
    (o.state, o.trace)
  | Op.set_channel channel =>
    let o := ieee802154_transceiver_set_channel env channel s t
    (o.state, o.trace)
  | Op.transmit frame =>
    let o := ieee802154_transceiver_transmit env frame s t
    (o.state, o.trace)
  | Op.transmit_channel frame channel =>
    let o := ieee802154_transceiver_transmit_channel env frame channel s t
    (o.state, o.trace)
  | Op.handle_receive_done frame frame_info uninit =>
    let o := ieee802154_transceiver_handle_receive_done env frame frame_info uninit s t
    (o.state, o.trace)

/-- The globals and the trace after a sequence of public calls. -/
def run_ops {F : Type} (env : Env F) : List (Op F) → State → Trace F → State × Trace F
  | [], s, t => (s, t)
  | op :: rest, s, t => run_ops env rest (op.run env s t).1 (op.run env s t).2

/-- Where there is a dispatch task there is a queue and the radio is enabled. -/
def task_has_queue (s : State) : Prop :=
  s.rx_task_handle ≠ none → s.message_buffer ≠ none ∧ s.radio_enabled = true

/-! ## The bridge example (`ieee802154_bridge.c`) -/

/-- The macro `RX_CHANNEL` of the bridge. -/
def RX_CHANNEL : Nat := 11

/-- The macro `TX_CHANNEL` of the bridge. -/
def TX_CHANNEL : Nat := 13

/-- The bridge's flag `transmitting`, with the transceiver's globals and the
calls made so far. The timing samples of `capture_start` and `capture_done`
only feed a log and are left out. -/
structure Bridge (F : Type) where
  transmitting : Bool
  core : State
  trace : Trace F

/-- The bridge once `app_main` is through, nothing being transmitted:
`transmitting = false`, transceiver initialised. -/
def bridge_listening : Bridge (List Nat) where
  transmitting := false
  core := state_listening
  trace := []

/-- The interrupt callback `esp_ieee802154_transmit_done` of the bridge. -/
def esp_ieee802154_transmit_done {F : Type} (b : Bridge F) : Bridge F :=
  { b with transmitting := false }

/-- The interrupt callback `esp_ieee802154_transmit_failed` of the bridge. -/
def esp_ieee802154_transmit_failed {F : Type} (b : Bridge F) : Bridge F :=
  { b with transmitting := false }

/-- The bridge's `rx_callback`, first statements: send to the other channel
(and log if that failed). Returns `ret` as well. -/
def rx_callback_send {F : Type} (env : Env F) (frame : F) (b : Bridge F) : Int × Bridge F :=
  let o := ieee802154_transceiver_transmit_channel env (some frame) TX_CHANNEL b.core b.trace
  (o.ret, { b with core := o.state, trace := o.trace })

/-- The bridge's `rx_callback`, next statement: `transmitting = true;`. -/
def rx_callback_mark {F : Type} (b : Bridge F) : Bridge F :=
  { b with transmitting := true }

/-- The bridge's `rx_callback`, the loop `while (transmitting) vTaskDelay(..)`
while no interrupt is served: `some` when the loop is left within `n` tests
of the flag, `none` when it is still waiting after them. -/
def rx_callback_wait {F : Type} : Nat → Bridge F → Option (Bridge F)
  | 0, _ => none
  | n + 1, b =>
    if b.transmitting then rx_callback_wait n { b with trace := b.trace ++ [Call.vTaskDelay] }
    else some b

/-- The bridge's `rx_callback`, last statements: back to the receiving channel
(and log if that failed). -/
def rx_callback_restore {F : Type} (env : Env F) (b : Bridge F) : Int × Bridge F :=
  let o := ieee802154_transceiver_set_channel env RX_CHANNEL b.core b.trace
  (o.ret, { b with core := o.state, trace := o.trace })

/-- An environment whose driver rejects `esp_ieee802154_transmit` only. -/
def env_transmit_fails : Env (List Nat) where
  driver := fun _ c =>
    match c with
    | Call.esp_ieee802154_transmit _ _ => ESP_FAIL
    | _ => ESP_OK
  xMessageBufferCreate := fun _ _ => some 1
  xTaskCreate := fun _ => some 2
  higher_priority_task_woken := fun _ => false
  ieee802154_frame_build := fun f _ => (f.length, f)
  ieee802154_frame_parse := fun b => some b

/-- The tasks that exist after the calls `rest`, given the calls `done` made
before them and the tasks `alive` at that point: `xTaskCreate` adds the handle
the environment returned for it (nothing when it failed), `vTaskDelete h`
removes `h`, no other call creates or deletes a task. -/
def tasks_alive_from {F : Type} (env : Env F) : Trace F → List Nat → Trace F → List Nat
  | _, alive, [] => alive
  | done, alive, Call.xTaskCreate :: rest =>
    tasks_alive_from env (done ++ [Call.xTaskCreate])
      (match env.xTaskCreate done with
        | some h => alive ++ [h]
        | none => alive)
      rest
  | done, alive, Call.vTaskDelete h :: rest =>
    tasks_alive_from env (done ++ [Call.vTaskDelete h]) (alive.erase h) rest
  | done, alive, c :: rest => tasks_alive_from env (done ++ [c]) alive rest

/-- The dispatch tasks that exist after the calls of a trace. -/
def tasks_alive {F : Type} (env : Env F) (t : Trace F) : List Nat :=
  tasks_alive_from env [] [] t

/-- An environment in which everything succeeds and every creation returns a
handle not returned before (it grows with the number of calls made). -/
def env_fresh : Env (List Nat) where
  driver := fun _ _ => ESP_OK
  xMessageBufferCreate := fun t _ => some (100 + t.length)
  xTaskCreate := fun t => some (200 + t.length)
  higher_priority_task_woken := fun _ => false
  ieee802154_frame_build := fun f _ => (f.length, f)
  ieee802154_frame_parse := fun b => some b

/-! # Properties -/

/-! ## Lifecycle: invalid channel, and the init/deinit cycle -/

/-- One init followed by one deinit, from a state without queue, task or
enabled radio, in an environment where nothing fails. -/
theorem init_then_deinit {F : Type} (env : Env F) (channel : Nat) (s : State) (t : Trace F)
    (hc : valid_channel channel) (hs : s.uninitialized) (henv : env.all_succeed) :
    (ieee802154_transceiver_init env channel s t).ret = ESP_OK ∧
    (ieee802154_transceiver_deinit env (ieee802154_transceiver_init env channel s t).state
      (ieee802154_transceiver_init env channel s t).trace).ret = ESP_OK ∧
    (ieee802154_transceiver_deinit env (ieee802154_transceiver_init env channel s t).state
      (ieee802154_transceiver_init env channel s t).trace).state = s := by
  obtain ⟨hd, hb, ht⟩ := henv
  obtain ⟨hmb, htask, hradio⟩ := hs
  obtain ⟨h1, h2⟩ := hc
  have hch : ¬ (channel < 11 ∨ channel > 26) := by omega
  obtain ⟨qh, hq⟩ := Option.isSome_iff_exists.mp (hb t (sizeof_frame_data_t + 4))
  obtain ⟨th, hth⟩ := Option.isSome_iff_exists.mp
    (ht (t ++ [Call.xMessageBufferCreate (sizeof_frame_data_t + 4), Call.esp_ieee802154_enable,
      Call.esp_ieee802154_set_coordinator false, Call.esp_ieee802154_set_promiscuous true,
      Call.esp_ieee802154_set_rx_when_idle true, Call.esp_ieee802154_set_channel channel,
      Call.esp_ieee802154_receive]))
  cases s
  simp only at hmb htask hradio
  subst hmb htask hradio
  simp [ieee802154_transceiver_init, ieee802154_transceiver_deinit, hch, hd, hq, hth]

/-- Any number of init/deinit cycles, under the same assumptions. -/
theorem init_deinit_cycles_ok {F : Type} (env : Env F) (channel : Nat) (s : State)
    (hc : valid_channel channel) (hs : s.uninitialized) (henv : env.all_succeed) (n : Nat) :
    ∀ t : Trace F,
      (init_deinit_cycles env channel n s t).1 = List.replicate (2 * n) ESP_OK ∧
      (init_deinit_cycles env channel n s t).2.1 = s := by
  induction n with
  | zero => intro t; simp [init_deinit_cycles]
  | succ k ih =>
    intro t
    obtain ⟨a1, b1, c1⟩ := init_then_deinit env channel s t hc hs henv
    have step := ih (ieee802154_transceiver_deinit env
      (ieee802154_transceiver_init env channel s t).state
      (ieee802154_transceiver_init env channel s t).trace).trace
    simp only [init_deinit_cycles, a1, b1, c1]
    refine ⟨?_, step.2⟩
    rw [step.1]
    have : 2 * (k + 1) = (2 * k + 1) + 1 := by ring
    rw [this, List.replicate_succ, List.replicate_succ]

/-- C1: for every channel outside [11,26], whatever the globals hold and
whatever has been called before, `ieee802154_transceiver_init` returns
`ESP_ERR_INVALID_ARG`, makes no call at all (no driver call, no queue, no
task) and leaves every global as it was. -/
theorem init_invalid_channel {F : Type} (env : Env F) (channel : Nat) (s : State)
    (t : Trace F) (h : ¬ valid_channel channel) :
    ieee802154_transceiver_init env channel s t =
      { ret := ESP_ERR_INVALID_ARG, state := s, trace := t } := by
  have hch : channel < 11 ∨ channel > 26 := by
    unfold valid_channel at h; omega
  simp [ieee802154_transceiver_init, hch]

/-- C1 at channel 255, on the initial globals. -/
theorem init_invalid_channel_witness :
    ¬ valid_channel 255 ∧
    ieee802154_transceiver_init env_ok 255 State.initial [] =
      { ret := ESP_ERR_INVALID_ARG, state := State.initial, trace := [] } :=
  ⟨by decide, init_invalid_channel env_ok 255 State.initial [] (by decide)⟩

/-- C2: for every channel in [11,26], from a state without queue, task or
enabled radio, when every driver and FreeRTOS call succeeds: init returns
`ESP_OK`, the deinit after it returns `ESP_OK`, and the globals are again what
they were before init; hence `n` cycles in a row all return `ESP_OK` and end
in the same globals, for every `n`. -/
theorem init_deinit_leaves_no_residue {F : Type} (env : Env F) (channel : Nat) (s : State)
    (t : Trace F) (hc : valid_channel channel) (hs : s.uninitialized)
    (henv : env.all_succeed) :
    (ieee802154_transceiver_init env channel s t).ret = ESP_OK ∧
    (ieee802154_transceiver_deinit env (ieee802154_transceiver_init env channel s t).state
      (ieee802154_transceiver_init env channel s t).trace).ret = ESP_OK ∧
    (ieee802154_transceiver_deinit env (ieee802154_transceiver_init env channel s t).state
      (ieee802154_transceiver_init env channel s t).trace).state = s ∧
    ∀ n : Nat,
      (init_deinit_cycles env channel n s t).1 = List.replicate (2 * n) ESP_OK ∧
      (init_deinit_cycles env channel n s t).2.1 = s := by
  obtain ⟨a, b, c⟩ := init_then_deinit env channel s t hc hs henv
  exact ⟨a, b, c, fun n => init_deinit_cycles_ok env channel s hc hs henv n t⟩

/-- C2 on channel 11, from the initial globals. -/
theorem init_deinit_leaves_no_residue_witness :
    (ieee802154_transceiver_init env_ok 11 State.initial []).ret = ESP_OK ∧
    (ieee802154_transceiver_deinit env_ok (ieee802154_transceiver_init env_ok 11 State.initial []).state
      (ieee802154_transceiver_init env_ok 11 State.initial []).trace).ret = ESP_OK ∧
    (ieee802154_transceiver_deinit env_ok (ieee802154_transceiver_init env_ok 11 State.initial []).state
      (ieee802154_transceiver_init env_ok 11 State.initial []).trace).state = State.initial ∧
    ∀ n : Nat,
      (init_deinit_cycles env_ok 11 n State.initial []).1 = List.replicate (2 * n) ESP_OK ∧
      (init_deinit_cycles env_ok 11 n State.initial []).2.1 = State.initial :=
  init_deinit_leaves_no_residue env_ok 11 State.initial [] (by decide)
    ⟨rfl, rfl, rfl⟩ ⟨fun _ _ => rfl, fun _ _ => rfl, fun _ => rfl⟩

/-! ## Lifecycle: a step of init fails -/

/-- C3 as stated fails: on channel 11 the radio is enabled, the next step
(set-coordinator) is the first to fail, and the teardown cannot disable the
radio either: init returns with `radio_enabled` still true. -/
theorem init_failure_radio_stays_enabled :
    valid_channel 11 ∧
    first_failure env_only_enable [] (init_calls 11) =
      some ([Call.xMessageBufferCreate (sizeof_frame_data_t + 4), Call.esp_ieee802154_enable],
        Call.esp_ieee802154_set_coordinator false) ∧
    (ieee802154_transceiver_init env_only_enable 11 State.initial []).ret = ESP_FAIL ∧
    (ieee802154_transceiver_init env_only_enable 11 State.initial []).state.radio_enabled = true ∧
    ¬ (ieee802154_transceiver_init env_only_enable 11 State.initial []).state.radio_enabled
        = false := by
  decide

/-- What deinit leaves, when the last call made before it was not a disable:
no queue, no task, and `radio_enabled` true exactly when deinit ended on a
failed `esp_ieee802154_disable`. -/
theorem deinit_teardown {F : Type} (env : Env F) (s : State) (t : Trace F)
    (hlast : t.getLast? ≠ some Call.esp_ieee802154_disable) :
    (ieee802154_transceiver_deinit env s t).state.message_buffer = none ∧
    (ieee802154_transceiver_deinit env s t).state.rx_task_handle = none ∧
    ((ieee802154_transceiver_deinit env s t).state.radio_enabled = true ↔
      ∃ pre, (ieee802154_transceiver_deinit env s t).trace
          = pre ++ [Call.esp_ieee802154_disable] ∧
        env.driver pre Call.esp_ieee802154_disable ≠ ESP_OK) := by
  have key : ∀ (u : Trace F), u.getLast? ≠ some Call.esp_ieee802154_disable →
      ¬ ∃ pre, u = pre ++ [Call.esp_ieee802154_disable] ∧
        env.driver pre Call.esp_ieee802154_disable ≠ ESP_OK := by
    rintro u hu ⟨pre, rfl, -⟩
    simp at hu
  have key2 : ∀ (u : Trace F),
      (∃ pre, u ++ [Call.esp_ieee802154_disable] = pre ++ [Call.esp_ieee802154_disable] ∧
        env.driver pre Call.esp_ieee802154_disable ≠ ESP_OK) ↔
      env.driver u Call.esp_ieee802154_disable ≠ ESP_OK := by
    intro u
    constructor
    · rintro ⟨pre, hpre, hne⟩
      rw [List.append_left_inj] at hpre
      rw [hpre]; exact hne
    · intro hne
      exact ⟨u, rfl, hne⟩
  rcases s with ⟨mb, cb, ud, th, re, tb⟩
  cases mb <;> cases th <;> cases re <;>
    simp only [ieee802154_transceiver_deinit, Bool.false_eq_true, if_false, if_true]
  all_goals first
    | (split_ifs with hd
       · refine ⟨rfl, rfl, ?_⟩
         simp only [key2]
         simpa using hd
       · refine ⟨rfl, rfl, ?_⟩
         simp only [key2]
         simpa using hd)
    | (refine ⟨by first | rfl | trivial, by first | rfl | trivial, ?_⟩
       simp only [Bool.false_eq_true, false_iff]
       apply key
       first | exact hlast | simp)

/-- The error path of init, when the last call made was not a disable. -/
theorem init_fail_teardown {F : Type} (env : Env F) (ret : Int) (s : State) (t : Trace F)
    (hlast : t.getLast? ≠ some Call.esp_ieee802154_disable) :
    (init_fail env ret s t).ret = ret ∧
    (init_fail env ret s t).state.message_buffer = none ∧
    (init_fail env ret s t).state.rx_task_handle = none ∧
    ((init_fail env ret s t).state.radio_enabled = true ↔
      ∃ pre, (init_fail env ret s t).trace = pre ++ [Call.esp_ieee802154_disable] ∧
        env.driver pre Call.esp_ieee802154_disable ≠ ESP_OK) :=
  ⟨rfl, deinit_teardown env s t hlast⟩

/-- The outcome of init when one of its steps is the first to fail. -/
theorem init_first_failure {F : Type} (env : Env F) (channel : Nat) (s : State)
    (t t' : Trace F) (c : Call F) (hc : valid_channel channel)
    (hf : first_failure env t (init_calls channel) = some (t', c)) :
    (ieee802154_transceiver_init env channel s t).ret = env.error_of t' c ∧
    (ieee802154_transceiver_init env channel s t).state.message_buffer = none ∧
    (ieee802154_transceiver_init env channel s t).state.rx_task_handle = none ∧
    ((ieee802154_transceiver_init env channel s t).state.radio_enabled = true ↔
      ∃ pre, (ieee802154_transceiver_init env channel s t).trace
          = pre ++ [Call.esp_ieee802154_disable] ∧
        env.driver pre Call.esp_ieee802154_disable ≠ ESP_OK) := by
  obtain ⟨h1, h2⟩ := hc
  have hch : ¬ (channel < 11 ∨ channel > 26) := by omega
  simp only [init_calls, first_failure, Env.succeeds] at hf
  rcases hq : env.xMessageBufferCreate t (sizeof_frame_data_t + 4) with _ | qh
  · rw [hq] at hf
    simp only [Option.isSome_none, Bool.false_eq_true, if_false, Option.some.injEq,
      Prod.mk.injEq] at hf
    obtain ⟨rfl, rfl⟩ := hf
    simp only [ieee802154_transceiver_init, hch, if_false, hq, Option.map_none',
      Option.isNone_none, if_true, Env.error_of]
    exact init_fail_teardown _ _ _ _ (by simp)
  · rw [hq] at hf
    simp only [Option.isSome_some, if_true] at hf
    split_ifs at hf
    all_goals simp only [Option.some.injEq, Prod.mk.injEq, reduceCtorEq] at hf
    all_goals obtain ⟨rfl, rfl⟩ := hf
    all_goals simp only [decide_eq_true_eq, Option.not_isSome_iff_eq_none, Bool.not_eq_true,
      Option.not_isSome, Option.isNone_iff_eq_none] at *
    all_goals simp only [ieee802154_transceiver_init, hch, if_false, Env.error_of, hq,
      Option.map_some', Option.isNone_some, Bool.false_eq_true, ne_eq, not_true_eq_false,
      not_false_eq_true, if_true, *]
    all_goals exact init_fail_teardown _ _ _ _ (by simp)

/-- C3, amended: for every channel in [11,26], every environment and every
prior state, when step `c` of init is the first to fail, init returns that
step's error (`ESP_ERR_NO_MEM` for the two creations, the driver's status code
otherwise) with `message_buffer` and `rx_task_handle` both `NULL`; and
`radio_enabled` is still true afterwards exactly when the last call made was
the teardown's `esp_ieee802154_disable` and that call failed. -/
theorem init_failure_teardown {F : Type} (env : Env F) (channel : Nat) (s : State)
    (t t' : Trace F) (c : Call F) (hc : valid_channel channel)
    (hf : first_failure env t (init_calls channel) = some (t', c)) :
    (ieee802154_transceiver_init env channel s t).ret = env.error_of t' c ∧
    (ieee802154_transceiver_init env channel s t).state.message_buffer = none ∧
    (ieee802154_transceiver_init env channel s t).state.rx_task_handle = none ∧
    ((ieee802154_transceiver_init env channel s t).state.radio_enabled = true ↔
      ∃ pre, (ieee802154_transceiver_init env channel s t).trace
          = pre ++ [Call.esp_ieee802154_disable] ∧
        env.driver pre Call.esp_ieee802154_disable ≠ ESP_OK) :=
  init_first_failure env channel s t t' c hc hf

/-- C3, amended, where set-coordinator is the first step to fail and the
teardown succeeds. -/
theorem init_failure_teardown_witness :
    (ieee802154_transceiver_init env_coordinator_fails 11 State.initial []).ret =
      env_coordinator_fails.error_of
        [Call.xMessageBufferCreate (sizeof_frame_data_t + 4), Call.esp_ieee802154_enable]
        (Call.esp_ieee802154_set_coordinator false) ∧
    (ieee802154_transceiver_init env_coordinator_fails 11 State.initial []).state.message_buffer
      = none ∧
    (ieee802154_transceiver_init env_coordinator_fails 11 State.initial []).state.rx_task_handle
      = none ∧
    ((ieee802154_transceiver_init env_coordinator_fails 11 State.initial []).state.radio_enabled
        = true ↔
      ∃ pre, (ieee802154_transceiver_init env_coordinator_fails 11 State.initial []).trace
          = pre ++ [Call.esp_ieee802154_disable] ∧
        env_coordinator_fails.driver pre Call.esp_ieee802154_disable ≠ ESP_OK) :=
  init_failure_teardown env_coordinator_fails 11 State.initial [] _ _ (by decide) (by decide)

/-! ## Receive, interrupt side -/

/-- C4: the code does not clamp. On a frame whose first byte is 200, with a
queue present, `memcpy` is asked for 200 bytes, not for min(200,128) = 128,
and 72 bytes are written past the 128-byte field `packet.frame`. -/
theorem handle_receive_done_copy_not_clamped :
    state_listening.message_buffer ≠ none ∧
    frame_len_200.byte 0 = 200 ∧
    (ieee802154_transceiver_handle_receive_done env_ok frame_len_200 frame_info_11
      (fun _ => 0) state_listening []).copied = 200 ∧
    min 200 MAX_FRAME_LEN = 128 ∧
    (ieee802154_transceiver_handle_receive_done env_ok frame_len_200 frame_info_11
      (fun _ => 0) state_listening []).beyond.length = 72 := by
  have hs : state_listening.message_buffer
      = some { handle := 1, size := sizeof_frame_data_t + 4, msgs := [] } := by decide
  refine ⟨by decide, rfl, ?_, by decide, ?_⟩
  · simp only [ieee802154_transceiver_handle_receive_done, hs]
    rfl
  · simp only [ieee802154_transceiver_handle_receive_done, hs, memcpy, List.length_drop,
      List.length_map, List.length_range, MAX_FRAME_LEN]
    rfl

/-- C5: every run of `ieee802154_transceiver_handle_receive_done`, whether the
queue is absent, the enqueue succeeds or the enqueue fails, adds calls to the
trace among which `esp_ieee802154_receive_handle_done` occurs exactly once,
with the frame pointer that was passed in. -/
theorem handle_receive_done_releases_once {F : Type} (env : Env F) (frame : HwFrame)
    (frame_info : esp_ieee802154_frame_info_t) (uninit : Nat → Nat) (s : State)
    (t : Trace F) :
    ∃ added, (ieee802154_transceiver_handle_receive_done env frame frame_info uninit s t).trace
        = t ++ added ∧
      released added = [frame.addr] := by
  unfold ieee802154_transceiver_handle_receive_done
  cases s.message_buffer with
  | none => exact ⟨_, rfl, rfl⟩
  | some mb =>
    simp only
    split_ifs
    · exact ⟨[Call.esp_ieee802154_receive_handle_done frame.addr, Call.portYIELD_FROM_ISR],
        by simp, rfl⟩
    · exact ⟨_, rfl, rfl⟩

/-! ## Receive, interrupt side: dropping -/

/-- A run of the handler with the queue absent or full changes no global. -/
theorem handle_receive_done_drop_state {F : Type} (env : Env F) (frame : HwFrame)
    (frame_info : esp_ieee802154_frame_info_t) (uninit : Nat → Nat) (s : State) (t : Trace F)
    (h : queue_absent_or_full s) :
    (ieee802154_transceiver_handle_receive_done env frame frame_info uninit s t).state = s := by
  rcases s with ⟨mb, cb, ud, th, re, tb⟩
  cases mb with
  | none => rfl
  | some mb =>
    have hfull : ¬ message_footprint sizeof_frame_data_t ≤ mb.space := by
      simpa [queue_absent_or_full] using h
    simp [ieee802154_transceiver_handle_receive_done, xMessageBufferSendFromISR, hfull]

/-- Bytes in use when every message is a whole `frame_data_t`. -/
theorem used_of_full_size (msgs : List Message)
    (hall : ∀ m ∈ msgs, m.len = sizeof_frame_data_t) :
    (msgs.map (fun m => message_footprint m.len)).sum
      = msgs.length * message_footprint sizeof_frame_data_t := by
  induction msgs with
  | nil => simp
  | cons m rest ih =>
    have hm : m.len = sizeof_frame_data_t := hall m (List.mem_cons_self _ _)
    have hrest : ∀ x ∈ rest, x.len = sizeof_frame_data_t :=
      fun x hx => hall x (List.mem_cons_of_mem _ hx)
    simp only [List.map_cons, List.sum_cons, List.length_cons, ih hrest, hm]
    ring

/-- A `frame_data_t` fits exactly when fewer messages are held than the
capacity, in a buffer holding whole `frame_data_t` messages only. -/
theorem fits_iff_below_capacity (mb : MessageBuffer)
    (hall : ∀ m ∈ mb.msgs, m.len = sizeof_frame_data_t) :
    message_footprint sizeof_frame_data_t ≤ mb.space ↔
      mb.msgs.length < queue_capacity mb.size := by
  have hpos : 0 < message_footprint sizeof_frame_data_t := by decide
  unfold MessageBuffer.space MessageBuffer.used queue_capacity
  rw [used_of_full_size mb.msgs hall, Nat.lt_iff_add_one_le, Nat.le_div_iff_mul_le hpos,
    Nat.add_mul, Nat.one_mul]
  generalize mb.msgs.length * message_footprint sizeof_frame_data_t = a
  omega

/-- Arrivals with no dequeue in between fill the queue up to its capacity and
not beyond. -/
theorem rx_arrivals_queue_length {F : Type} (env : Env F) (arrivals : List Arrival) :
    ∀ (s : State) (t : Trace F) (mb : MessageBuffer), s.message_buffer = some mb →
      (∀ m ∈ mb.msgs, m.len = sizeof_frame_data_t) →
      mb.msgs.length ≤ queue_capacity mb.size →
      queue_length (rx_arrivals env arrivals s t).1
        = min (mb.msgs.length + arrivals.length) (queue_capacity mb.size) := by
  induction arrivals with
  | nil =>
    intro s t mb hmb _ hle
    simp [rx_arrivals, queue_length, hmb, hle]
  | cons a rest ih =>
    intro s t mb hmb hall hle
    simp only [rx_arrivals, List.length_cons]
    by_cases hfit : message_footprint sizeof_frame_data_t ≤ mb.space
    · have hlt := (fits_iff_below_capacity mb hall).mp hfit
      have hstate : (ieee802154_transceiver_handle_receive_done env a.frame a.frame_info
          a.uninit s t).state.message_buffer
          = some { mb with msgs := mb.msgs ++
              [{ len := sizeof_frame_data_t,
                 data := { frame := (memcpy ((List.range MAX_FRAME_LEN).map a.uninit)
                             a.frame.byte (a.frame.byte 0)).1,
                           frame_info := a.frame_info } }] } := by
        simp [ieee802154_transceiver_handle_receive_done, hmb, xMessageBufferSendFromISR, hfit]
      rw [ih _ _ _ hstate]
      · simp only [List.length_append, List.length_singleton]
        congr 1
        omega
      · intro m hm
        simp only [List.mem_append, List.mem_singleton] at hm
        rcases hm with hm | rfl
        · exact hall m hm
        · rfl
      · simpa using hlt
    · have hdrop : (ieee802154_transceiver_handle_receive_done env a.frame a.frame_info
          a.uninit s t).state = s :=
        handle_receive_done_drop_state env a.frame a.frame_info a.uninit s t
          (by simpa [queue_absent_or_full, hmb] using hfit)
      have hge : ¬ mb.msgs.length < queue_capacity mb.size :=
        fun hlt => hfit ((fits_iff_below_capacity mb hall).mpr hlt)
      rw [hdrop, ih _ _ _ hmb hall hle]
      omega

/-- The call `first_failure` returns did fail. -/
theorem first_failure_fails {F : Type} (env : Env F) (calls : List (Call F)) :
    ∀ (t t' : Trace F) (c : Call F), first_failure env t calls = some (t', c) →
      env.succeeds t' c = false := by
  induction calls with
  | nil => intro t t' c h; simp [first_failure] at h
  | cons d rest ih =>
    intro t t' c h
    simp only [first_failure] at h
    split_ifs at h with hd
    · exact ih _ _ _ h
    · simp only [Option.some.injEq, Prod.mk.injEq] at h
      obtain ⟨rfl, rfl⟩ := h
      simpa using hd

/-- The error of a failed step is not `ESP_OK`. -/
theorem error_of_ne_ok {F : Type} (env : Env F) (t : Trace F) (c : Call F)
    (h : env.succeeds t c = false) : env.error_of t c ≠ ESP_OK := by
  cases c <;> simp_all [Env.succeeds, Env.error_of, ESP_ERR_NO_MEM, ESP_OK]

/-- The outcome of init when none of its steps fails. -/
theorem init_success {F : Type} (env : Env F) (channel : Nat) (s : State) (t : Trace F)
    (hc : valid_channel channel) (hf : first_failure env t (init_calls channel) = none) :
    ∃ qh th, ieee802154_transceiver_init env channel s t =
      { ret := ESP_OK,
        state := { s with
          message_buffer := some { handle := qh, size := sizeof_frame_data_t + 4, msgs := [] },
          radio_enabled := true,
          rx_task_handle := some th },
        trace := t ++ init_calls channel } := by
  obtain ⟨h1, h2⟩ := hc
  have hch : ¬ (channel < 11 ∨ channel > 26) := by omega
  simp only [init_calls, first_failure, Env.succeeds] at hf
  rcases hq : env.xMessageBufferCreate t (sizeof_frame_data_t + 4) with _ | qh
  · rw [hq] at hf
    simp at hf
  · rw [hq] at hf
    simp only [Option.isSome_some, if_true] at hf
    split_ifs at hf with a1 a2 a3 a4 a5 a6 a7
    simp only [decide_eq_true_eq] at a1 a2 a3 a4 a5 a6
    obtain ⟨th, hth⟩ := Option.isSome_iff_exists.mp a7
    refine ⟨qh, th, ?_⟩
    simp only [ieee802154_transceiver_init, hch, if_false, hq,
      Option.map_some', Option.isNone_some, Bool.false_eq_true, ne_eq, not_true_eq_false,
      if_true, a1, a2, a3, a4, a5, a6, hth]
    simp [init_calls]

/-- A successful init leaves an empty queue created with
`sizeof(frame_data_t) + 4` bytes. -/
theorem init_ok_queue {F : Type} (env : Env F) (channel : Nat) (s : State) (t : Trace F)
    (h : (ieee802154_transceiver_init env channel s t).ret = ESP_OK) :
    ∃ hnd, (ieee802154_transceiver_init env channel s t).state.message_buffer
      = some { handle := hnd, size := sizeof_frame_data_t + 4, msgs := [] } := by
  by_cases hc : valid_channel channel
  · rcases hff : first_failure env t (init_calls channel) with _ | ⟨t', c⟩
    · obtain ⟨qh, th, e⟩ := init_success env channel s t hc hff
      exact ⟨qh, by rw [e]⟩
    · exfalso
      have hr := (init_first_failure env channel s t t' c hc hff).1
      exact error_of_ne_ok env t' c (first_failure_fails env _ _ _ _ hff) (hr ▸ h)
  · exfalso
    have hch : channel < 11 ∨ channel > 26 := by
      unfold valid_channel at hc; omega
    simp [ieee802154_transceiver_init, hch, ESP_ERR_INVALID_ARG, ESP_OK] at h

/-- C6 as stated fails: a drop increments nothing. With the queue absent
(before init) and with the queue full, the handler returns with every global
unchanged, so no quantity read from the transceiver state has grown by one. -/
theorem drop_increments_no_counter :
    (queue_absent_or_full State.initial ∧
      ¬ ∃ counter : State → Nat,
        counter (ieee802154_transceiver_handle_receive_done env_ok frame_len_5 frame_info_11
          (fun _ => 0) State.initial []).state = counter State.initial + 1) ∧
    (queue_absent_or_full state_queue_full ∧
      ¬ ∃ counter : State → Nat,
        counter (ieee802154_transceiver_handle_receive_done env_ok frame_len_5 frame_info_11
          (fun _ => 0) state_queue_full []).state = counter state_queue_full + 1) := by
  have h1 : queue_absent_or_full State.initial := by decide
  have h2 : queue_absent_or_full state_queue_full := by
    have hs : state_listening.message_buffer
        = some { handle := 1, size := sizeof_frame_data_t + 4, msgs := [] } := by decide
    have hfit : message_footprint sizeof_frame_data_t
        ≤ MessageBuffer.space { handle := 1, size := sizeof_frame_data_t + 4, msgs := [] } := by
      decide
    simp only [queue_absent_or_full, state_queue_full,
      ieee802154_transceiver_handle_receive_done, hs, xMessageBufferSendFromISR, hfit, if_true]
    decide
  refine ⟨⟨h1, ?_⟩, ⟨h2, ?_⟩⟩
  · rintro ⟨counter, hc⟩
    rw [handle_receive_done_drop_state _ _ _ _ _ _ h1] at hc
    omega
  · rintro ⟨counter, hc⟩
    rw [handle_receive_done_drop_state _ _ _ _ _ _ h2] at hc
    omega

/-- C6, amended: when the handler runs with the queue absent or full, the
frame is dropped and every global, the queue contents included, is unchanged
(there is no drop counter). Starting from an empty queue of capacity K, `n`
arrivals with no dequeue leave min(n, K) messages queued: the first K are
enqueued, the (K+1)-th is the first one dropped. The queue a successful init
creates is empty, has `sizeof(frame_data_t) + 4` bytes, and its K is 1. -/
theorem handle_receive_done_drop {F : Type} (env : Env F) :
    (∀ (frame : HwFrame) (frame_info : esp_ieee802154_frame_info_t) (uninit : Nat → Nat)
        (s : State) (t : Trace F), queue_absent_or_full s →
      (ieee802154_transceiver_handle_receive_done env frame frame_info uninit s t).state = s) ∧
    (∀ (arrivals : List Arrival) (hnd size : Nat) (s : State) (t : Trace F),
      s.message_buffer = some { handle := hnd, size := size, msgs := [] } →
      queue_length (rx_arrivals env arrivals s t).1
        = min arrivals.length (queue_capacity size)) ∧
    (∀ (channel : Nat) (s : State) (t : Trace F),
      (ieee802154_transceiver_init env channel s t).ret = ESP_OK →
      ∃ hnd, (ieee802154_transceiver_init env channel s t).state.message_buffer
        = some { handle := hnd, size := sizeof_frame_data_t + 4, msgs := [] }) ∧
    queue_capacity (sizeof_frame_data_t + 4) = 1 := by
  refine ⟨fun frame frame_info uninit s t h =>
      handle_receive_done_drop_state env frame frame_info uninit s t h, ?_,
    fun channel s t h => init_ok_queue env channel s t h, by decide⟩
  intro arrivals hnd size s t hmb
  have := rx_arrivals_queue_length env arrivals s t _ hmb (by simp) (by simp)
  simpa using this

/-- C6, amended, before init: the frame is dropped, the globals stay. -/
theorem handle_receive_done_drop_witness :
    (queue_absent_or_full State.initial ∧
      (ieee802154_transceiver_handle_receive_done env_ok frame_len_5 frame_info_11 (fun _ => 0)
        State.initial []).state = State.initial) ∧
    (state_listening.message_buffer
        = some { handle := 1, size := sizeof_frame_data_t + 4, msgs := [] } ∧
      queue_length (rx_arrivals env_ok [arrival_5, arrival_5] state_listening []).1
        = min [arrival_5, arrival_5].length (queue_capacity (sizeof_frame_data_t + 4))) :=
  ⟨⟨by decide, (handle_receive_done_drop env_ok).1 frame_len_5 frame_info_11 (fun _ => 0)
      State.initial [] (by decide)⟩,
    ⟨by decide, (handle_receive_done_drop env_ok).2.1 [arrival_5, arrival_5] 1
      (sizeof_frame_data_t + 4) state_listening [] (by decide)⟩⟩

/-! ## Transmit -/

/-- C7 as stated fails in its last part: with a non-NULL frame and a driver
whose transmit call answers `ESP_ERR_INVALID_ARG`,
`ieee802154_transceiver_transmit` returns `ESP_ERR_INVALID_ARG`. -/
theorem transmit_returns_driver_invalid_arg :
    (ieee802154_transceiver_transmit env_driver_rejects (some [3, 1, 2]) State.initial []).ret
      = ESP_ERR_INVALID_ARG := by
  decide

/-- C7, amended: with a `NULL` frame both transmit functions, and with a
channel outside [11,26] `ieee802154_transceiver_transmit_channel`, return
`ESP_ERR_INVALID_ARG` having made no call and changed no global (the transmit
buffer included). For a non-NULL frame `ieee802154_transceiver_transmit` has no
argument check that fails: it returns `ESP_ERR_INVALID_ARG` only when it has
called `esp_ieee802154_transmit` and that call returned this code. -/
theorem transmit_invalid_argument {F : Type} (env : Env F) (frame : Option F) (channel : Nat)
    (s : State) (t : Trace F) :
    (frame = none →
      ieee802154_transceiver_transmit env frame s t
        = { ret := ESP_ERR_INVALID_ARG, state := s, trace := t } ∧
      ieee802154_transceiver_transmit_channel env frame channel s t
        = { ret := ESP_ERR_INVALID_ARG, state := s, trace := t }) ∧
    (¬ valid_channel channel →
      ieee802154_transceiver_transmit_channel env frame channel s t
        = { ret := ESP_ERR_INVALID_ARG, state := s, trace := t }) ∧
    (∀ f, frame = some f →
      (ieee802154_transceiver_transmit env frame s t).ret = ESP_ERR_INVALID_ARG →
      (ieee802154_transceiver_transmit env frame s t).trace
        = t ++ [Call.esp_ieee802154_transmit
            (env.ieee802154_frame_build f (List.replicate MAX_FRAME_LEN 0)).2 false] ∧
      env.driver t (Call.esp_ieee802154_transmit
        (env.ieee802154_frame_build f (List.replicate MAX_FRAME_LEN 0)).2 false)
        = ESP_ERR_INVALID_ARG) := by
  refine ⟨?_, ?_, ?_⟩
  · rintro rfl
    exact ⟨rfl, rfl⟩
  · intro hc
    have hch : channel < 11 ∨ channel > 26 := by
      unfold valid_channel at hc; omega
    cases frame with
    | none => rfl
    | some f => simp [ieee802154_transceiver_transmit_channel, transmit_channel, hch]
  · rintro f rfl hret
    have e : ESP_FAIL ≠ ESP_ERR_INVALID_ARG := by decide
    simp only [ieee802154_transceiver_transmit, transmit_channel, Bool.false_eq_true,
      false_and, if_false] at hret ⊢
    have e0 : ESP_OK ≠ ESP_ERR_INVALID_ARG := by decide
    split_ifs at hret ⊢ with h0 h1
    · exact absurd hret e
    · exact ⟨rfl, hret⟩
    · exact absurd hret e0

/-- C7, amended, on a `NULL` frame. -/
theorem transmit_invalid_argument_witness :
    ieee802154_transceiver_transmit env_ok none State.initial []
      = { ret := ESP_ERR_INVALID_ARG, state := State.initial, trace := [] } ∧
    ieee802154_transceiver_transmit_channel env_ok none 11 State.initial []
      = { ret := ESP_ERR_INVALID_ARG, state := State.initial, trace := [] } :=
  (transmit_invalid_argument env_ok none 11 State.initial []).1 rfl

/-- C8: for every non-NULL frame on which `ieee802154_frame_build` reports
failure (returns 0), `ieee802154_transceiver_transmit` returns `ESP_FAIL` and
makes no call; `ieee802154_transceiver_transmit_channel` returns an error and
makes no call, set-channel included, for every channel, and that error is
`ESP_FAIL` when the channel is in [11,26]. -/
theorem transmit_encoding_failure {F : Type} (env : Env F) (f : F) (channel : Nat)
    (s : State) (t : Trace F)
    (hfail : (env.ieee802154_frame_build f (List.replicate MAX_FRAME_LEN 0)).1 = 0) :
    (ieee802154_transceiver_transmit env (some f) s t).ret = ESP_FAIL ∧
    (ieee802154_transceiver_transmit env (some f) s t).trace = t ∧
    (ieee802154_transceiver_transmit_channel env (some f) channel s t).ret ≠ ESP_OK ∧
    (ieee802154_transceiver_transmit_channel env (some f) channel s t).trace = t ∧
    (valid_channel channel →
      (ieee802154_transceiver_transmit_channel env (some f) channel s t).ret = ESP_FAIL) := by
  have e1 : ESP_ERR_INVALID_ARG ≠ ESP_OK := by decide
  have e2 : ESP_FAIL ≠ ESP_OK := by decide
  refine ⟨?_, ?_, ?_, ?_, ?_⟩
  · simp [ieee802154_transceiver_transmit, transmit_channel, hfail]
  · simp [ieee802154_transceiver_transmit, transmit_channel, hfail]
  · by_cases hch : channel < 11 ∨ channel > 26
    · simpa [ieee802154_transceiver_transmit_channel, transmit_channel, hch] using e1
    · simpa [ieee802154_transceiver_transmit_channel, transmit_channel, hch, hfail] using e2
  · by_cases hch : channel < 11 ∨ channel > 26
    · simp [ieee802154_transceiver_transmit_channel, transmit_channel, hch]
    · simp [ieee802154_transceiver_transmit_channel, transmit_channel, hch, hfail]
  · intro hc
    have hch : ¬ (channel < 11 ∨ channel > 26) := by
      unfold valid_channel at hc; omega
    simp [ieee802154_transceiver_transmit_channel, transmit_channel, hch, hfail]

/-- C8 with an encoder that always fails, on channel 15. -/
theorem transmit_encoding_failure_witness :
    (ieee802154_transceiver_transmit env_codec_fails (some [3, 1, 2]) state_listening []).ret
      = ESP_FAIL ∧
    (ieee802154_transceiver_transmit env_codec_fails (some [3, 1, 2]) state_listening []).trace
      = [] ∧
    (ieee802154_transceiver_transmit_channel env_codec_fails (some [3, 1, 2]) 15
      state_listening []).ret ≠ ESP_OK ∧
    (ieee802154_transceiver_transmit_channel env_codec_fails (some [3, 1, 2]) 15
      state_listening []).trace = [] ∧
    (valid_channel 15 →
      (ieee802154_transceiver_transmit_channel env_codec_fails (some [3, 1, 2]) 15
        state_listening []).ret = ESP_FAIL) :=
  transmit_encoding_failure env_codec_fails [3, 1, 2] 15 state_listening [] rfl

/-! ## Channel -/

/-- C9: `ieee802154_transceiver_set_channel`. Outside [11,26] it returns
`ESP_ERR_INVALID_ARG` and makes no call. Inside, it calls
`esp_ieee802154_set_channel(channel)`; when that fails it returns its status
and calls nothing more; otherwise it calls `esp_ieee802154_receive()` next and
returns its status. It returns `ESP_OK` exactly when both calls returned
`ESP_OK`. No global changes. -/
theorem set_channel_contract {F : Type} (env : Env F) (channel : Nat) (s : State)
    (t : Trace F) :
    (¬ valid_channel channel →
      ieee802154_transceiver_set_channel env channel s t
        = { ret := ESP_ERR_INVALID_ARG, state := s, trace := t }) ∧
    (valid_channel channel →
      (env.driver t (Call.esp_ieee802154_set_channel channel) ≠ ESP_OK →
        ieee802154_transceiver_set_channel env channel s t
          = { ret := env.driver t (Call.esp_ieee802154_set_channel channel), state := s,
              trace := t ++ [Call.esp_ieee802154_set_channel channel] }) ∧
      (env.driver t (Call.esp_ieee802154_set_channel channel) = ESP_OK →
        ieee802154_transceiver_set_channel env channel s t
          = { ret := env.driver (t ++ [Call.esp_ieee802154_set_channel channel])
                Call.esp_ieee802154_receive,
              state := s,
              trace := t ++ [Call.esp_ieee802154_set_channel channel,
                Call.esp_ieee802154_receive] }) ∧
      ((ieee802154_transceiver_set_channel env channel s t).ret = ESP_OK ↔
        env.driver t (Call.esp_ieee802154_set_channel channel) = ESP_OK ∧
        env.driver (t ++ [Call.esp_ieee802154_set_channel channel])
          Call.esp_ieee802154_receive = ESP_OK)) := by
  constructor
  · intro hc
    have hch : channel < 11 ∨ channel > 26 := by
      unfold valid_channel at hc; omega
    simp [ieee802154_transceiver_set_channel, hch]
  · intro hc
    have hch : ¬ (channel < 11 ∨ channel > 26) := by
      unfold valid_channel at hc; omega
    refine ⟨?_, ?_, ?_⟩
    · intro h1
      simp [ieee802154_transceiver_set_channel, hch, h1]
    · intro h1
      by_cases h2 : env.driver (t ++ [Call.esp_ieee802154_set_channel channel])
          Call.esp_ieee802154_receive = ESP_OK
      · simp [ieee802154_transceiver_set_channel, hch, h1, h2]
      · simp [ieee802154_transceiver_set_channel, hch, h1, h2]
    · by_cases h1 : env.driver t (Call.esp_ieee802154_set_channel channel) = ESP_OK
      · by_cases h2 : env.driver (t ++ [Call.esp_ieee802154_set_channel channel])
            Call.esp_ieee802154_receive = ESP_OK
        · simp [ieee802154_transceiver_set_channel, hch, h1, h2]
        · simp [ieee802154_transceiver_set_channel, hch, h1, h2]
      · simp [ieee802154_transceiver_set_channel, hch, h1]

/-- C9 on channel 10 (rejected) and, through the second part, channel 12. -/
theorem set_channel_contract_witness :
    ieee802154_transceiver_set_channel env_ok 10 state_listening []
      = { ret := ESP_ERR_INVALID_ARG, state := state_listening, trace := [] } ∧
    ieee802154_transceiver_set_channel env_ok 12 state_listening []
      = { ret := env_ok.driver [Call.esp_ieee802154_set_channel 12] Call.esp_ieee802154_receive,
          state := state_listening,
          trace := [Call.esp_ieee802154_set_channel 12, Call.esp_ieee802154_receive] } :=
  ⟨(set_channel_contract env_ok 10 state_listening []).1 (by decide),
   ((set_channel_contract env_ok 12 state_listening []).2 (by decide)).2.1 rfl⟩

/-! ## Receive, task side -/

/-- C10: `ieee802154_transceiver_set_rx_callback(callback, user_data)` returns
`ESP_OK` and replaces the registration, also when `callback` is `NULL`. In the
next pass of the dispatch loop over a queue that exists: on a dequeued
full-size slot, if the decoder succeeds and the registered callback is not
`NULL`, exactly that callback is called, once, with the decoded frame, the
slot's frame info and the registered user data; if the decoder fails or the
callback is `NULL`, no callback is called; on a short, over-long or timed-out
read nothing is called at all. In every case the loop goes on. -/
theorem dispatch_iteration_callback {F : Type} (env : Env F) (callback : Option Nat)
    (user_data : Nat) (s : State) (t : Trace F) (mb : MessageBuffer)
    (hmb : s.message_buffer = some mb) :
    (ieee802154_transceiver_set_rx_callback callback user_data s t).ret = ESP_OK ∧
    (ieee802154_transceiver_set_rx_callback callback user_data s t).state
      = { s with rx_callback := callback, rx_callback_user_data := user_data } ∧
    (ieee802154_transceiver_set_rx_callback callback user_data s t).trace = t ∧
    (∀ m rest f fn, mb.msgs = m :: rest → m.len = sizeof_frame_data_t →
      env.ieee802154_frame_parse m.data.frame = some f → callback = some fn →
      receive_packet_task_iteration env
          (ieee802154_transceiver_set_rx_callback callback user_data s t).state t
        = some ({ s with rx_callback := callback, rx_callback_user_data := user_data,
                         message_buffer := some { mb with msgs := rest } },
            t ++ [Call.rx_callback fn f m.data.frame_info user_data, Call.vTaskDelay])) ∧
    (∀ m rest, mb.msgs = m :: rest → m.len = sizeof_frame_data_t →
      env.ieee802154_frame_parse m.data.frame = none ∨ callback = none →
      ∃ added, receive_packet_task_iteration env
          (ieee802154_transceiver_set_rx_callback callback user_data s t).state t
        = some ({ s with rx_callback := callback, rx_callback_user_data := user_data,
                         message_buffer := some { mb with msgs := rest } }, t ++ added) ∧
        invoked added = []) ∧
    (mb.msgs = [] ∨ (∃ m rest, mb.msgs = m :: rest ∧ m.len ≠ sizeof_frame_data_t) →
      ∃ s', receive_packet_task_iteration env
          (ieee802154_transceiver_set_rx_callback callback user_data s t).state t
        = some (s', t)) := by
  refine ⟨rfl, rfl, rfl, ?_, ?_, ?_⟩
  · rintro m rest f fn hm hlen hparse rfl
    simp [receive_packet_task_iteration, ieee802154_transceiver_set_rx_callback, hmb,
      xMessageBufferReceive, hm, hlen, hparse]
  · rintro m rest hm hlen hnot
    rcases hp : env.ieee802154_frame_parse m.data.frame with _ | f
    · refine ⟨[], ?_, rfl⟩
      simp [receive_packet_task_iteration, ieee802154_transceiver_set_rx_callback, hmb,
        xMessageBufferReceive, hm, hlen, hp]
    · have hcb : callback = none := by
        rcases hnot with h | h
        · rw [hp] at h; cases h
        · exact h
      subst hcb
      refine ⟨[Call.vTaskDelay], ?_, rfl⟩
      simp [receive_packet_task_iteration, ieee802154_transceiver_set_rx_callback, hmb,
        xMessageBufferReceive, hm, hlen, hp]
  · rintro (hm | ⟨m, rest, hm, hlen⟩)
    · refine ⟨{ s with rx_callback := callback, rx_callback_user_data := user_data }, ?_⟩
      rcases mb with ⟨hnd, size, msgs⟩
      simp only at hm
      subst hm
      simp [receive_packet_task_iteration, ieee802154_transceiver_set_rx_callback, hmb,
        xMessageBufferReceive]
    · by_cases hle : m.len ≤ sizeof_frame_data_t
      · refine ⟨{ s with rx_callback := callback, rx_callback_user_data := user_data,
                         message_buffer := some { mb with msgs := rest } }, ?_⟩
        simp [receive_packet_task_iteration, ieee802154_transceiver_set_rx_callback, hmb,
          xMessageBufferReceive, hm, hlen, hle]
      · refine ⟨{ s with rx_callback := callback, rx_callback_user_data := user_data }, ?_⟩
        rcases mb with ⟨hnd, size, msgs⟩
        simp only at hm
        subst hm
        simp [receive_packet_task_iteration, ieee802154_transceiver_set_rx_callback, hmb,
          xMessageBufferReceive, hle]

/-- C10 with callback 7 and user data 42 registered, one slot queued and a
decoder that succeeds: callback 7 is called once with the slot's frame info
and 42. -/
theorem dispatch_iteration_callback_witness :
    state_queue_full.message_buffer = some queue_one ∧
    receive_packet_task_iteration env_ok
        (ieee802154_transceiver_set_rx_callback (some 7) 42 state_queue_full
          ([] : Trace (List Nat))).state []
      = some ({ state_queue_full with
                  rx_callback := some 7
                  rx_callback_user_data := 42
                  message_buffer := some { queue_one with msgs := [] } },
          [] ++ [Call.rx_callback 7 slot_5.data.frame slot_5.data.frame_info 42,
            Call.vTaskDelay]) :=
  ⟨rfl, (dispatch_iteration_callback env_ok (some 7) 42 state_queue_full [] queue_one
    rfl).2.2.2.1 slot_5 [] slot_5.data.frame 7 rfl rfl rfl rfl⟩

/-! ## Relay, then dispatch -/

/-- A successful init, in full: what it returns, leaves and calls. -/
theorem init_ok_state {F : Type} (env : Env F) (channel : Nat) (s : State) (t : Trace F)
    (h : (ieee802154_transceiver_init env channel s t).ret = ESP_OK) :
    ∃ qh th, ieee802154_transceiver_init env channel s t =
      { ret := ESP_OK,
        state := { s with
          message_buffer := some { handle := qh, size := sizeof_frame_data_t + 4, msgs := [] },
          radio_enabled := true,
          rx_task_handle := some th },
        trace := t ++ init_calls channel } := by
  by_cases hc : valid_channel channel
  · rcases hff : first_failure env t (init_calls channel) with _ | ⟨t', c⟩
    · exact init_success env channel s t hc hff
    · exfalso
      have hr := (init_first_failure env channel s t t' c hc hff).1
      exact error_of_ne_ok env t' c (first_failure_fails env _ _ _ _ hff) (hr ▸ h)
  · exfalso
    have hch : channel < 11 ∨ channel > 26 := by
      unfold valid_channel at hc; omega
    simp [ieee802154_transceiver_init, hch, ESP_ERR_INVALID_ARG, ESP_OK] at h

/-- A copy of at most `dst.length` bytes stays inside the field: the first `n`
bytes are the source's, the length is kept, nothing is written beyond. -/
theorem memcpy_within (dst : List Nat) (src : Nat → Nat) (n : Nat) (hn : n ≤ dst.length) :
    (memcpy dst src n).1.take n = (List.range n).map src ∧
    (memcpy dst src n).1.length = dst.length ∧
    (memcpy dst src n).2 = [] := by
  have hlen : ((List.range n).map src).length = n := by simp
  have htake : ((List.range n).map src).take dst.length = (List.range n).map src :=
    List.take_of_length_le (by rw [hlen]; exact hn)
  refine ⟨?_, ?_, ?_⟩
  · simp only [memcpy, htake]
    rw [List.take_append_of_le_length (by rw [hlen])]
    exact List.take_of_length_le (by rw [hlen])
  · simp only [memcpy, htake, List.length_append, hlen, List.length_drop]
    omega
  · simp only [memcpy]
    exact List.drop_of_length_le (by rw [hlen]; exact hn)

/-- C11: after a successful init on any channel (the queue is then empty),
for every hardware frame whose length byte `n` is at most 128 and every frame
info, the handler enqueues one slot; the slot holds the relayed frame info
unchanged and its first `n` frame bytes are the frame's first `n` bytes; the
next dequeue of the dispatch loop yields exactly that slot, the decoder is
given the slot's frame bytes, and the registered callback, when there is one
and the decoder succeeds, is given the relayed frame info. -/
theorem relay_then_dispatch {F : Type} (env : Env F) (channel : Nat) (s : State)
    (t : Trace F) (frame : HwFrame) (frame_info : esp_ieee802154_frame_info_t)
    (uninit : Nat → Nat)
    (hinit : (ieee802154_transceiver_init env channel s t).ret = ESP_OK)
    (hn : frame.byte 0 ≤ MAX_FRAME_LEN) :
    ∃ hnd slot,
      (ieee802154_transceiver_handle_receive_done env frame frame_info uninit
        (ieee802154_transceiver_init env channel s t).state
        (ieee802154_transceiver_init env channel s t).trace).state.message_buffer
        = some { handle := hnd, size := sizeof_frame_data_t + 4, msgs := [slot] } ∧
      slot.len = sizeof_frame_data_t ∧
      slot.data.frame_info = frame_info ∧
      slot.data.frame.take (frame.byte 0) = (List.range (frame.byte 0)).map frame.byte ∧
      xMessageBufferReceive { handle := hnd, size := sizeof_frame_data_t + 4, msgs := [slot] }
          sizeof_frame_data_t
        = (some slot, { handle := hnd, size := sizeof_frame_data_t + 4, msgs := [] }) ∧
      receive_packet_task_iteration env
          (ieee802154_transceiver_handle_receive_done env frame frame_info uninit
            (ieee802154_transceiver_init env channel s t).state
            (ieee802154_transceiver_init env channel s t).trace).state
          (ieee802154_transceiver_handle_receive_done env frame frame_info uninit
            (ieee802154_transceiver_init env channel s t).state
            (ieee802154_transceiver_init env channel s t).trace).trace
        = some
          ({ (ieee802154_transceiver_handle_receive_done env frame frame_info uninit
                (ieee802154_transceiver_init env channel s t).state
                (ieee802154_transceiver_init env channel s t).trace).state with
              message_buffer :=
                some { handle := hnd, size := sizeof_frame_data_t + 4, msgs := [] } },
            (ieee802154_transceiver_handle_receive_done env frame frame_info uninit
              (ieee802154_transceiver_init env channel s t).state
              (ieee802154_transceiver_init env channel s t).trace).trace ++
            (match env.ieee802154_frame_parse slot.data.frame with
              | none => []
              | some f =>
                (match s.rx_callback with
                  | some fn => [Call.rx_callback fn f frame_info s.rx_callback_user_data]
                  | none => []) ++ [Call.vTaskDelay])) := by
  obtain ⟨qh, th, e⟩ := init_ok_state env channel s t hinit
  have hfit : message_footprint sizeof_frame_data_t
      ≤ MessageBuffer.space { handle := qh, size := sizeof_frame_data_t + 4, msgs := [] } := by
    simp [MessageBuffer.space, MessageBuffer.used, message_footprint]
  have hcopy := memcpy_within ((List.range MAX_FRAME_LEN).map uninit) frame.byte
    (frame.byte 0) (by simpa using hn)
  refine ⟨qh, Message.mk sizeof_frame_data_t (frame_data_t.mk
      (memcpy ((List.range MAX_FRAME_LEN).map uninit) frame.byte (frame.byte 0)).1 frame_info),
    ?_, rfl, rfl, hcopy.1, ?_, ?_⟩
  · rw [e]
    simp [ieee802154_transceiver_handle_receive_done, xMessageBufferSendFromISR, hfit]
  · simp [xMessageBufferReceive]
  · rw [e]
    simp only [ieee802154_transceiver_handle_receive_done, xMessageBufferSendFromISR, hfit,
      if_true, List.nil_append, receive_packet_task_iteration, xMessageBufferReceive,
      le_refl, ne_eq, not_true_eq_false, if_false]
    rcases env.ieee802154_frame_parse (memcpy ((List.range MAX_FRAME_LEN).map uninit)
        frame.byte (frame.byte 0)).1 with _ | f
    · simp
    · rcases s.rx_callback with _ | fn <;> simp

/-- C11 on channel 11 with a 5-byte frame heard on channel 11: the queued slot
reports channel 11 and starts with the frame's five bytes. -/
theorem relay_then_dispatch_witness :
    (ieee802154_transceiver_init env_ok 11 State.initial []).ret = ESP_OK ∧
    frame_len_5.byte 0 ≤ MAX_FRAME_LEN ∧
    ∃ hnd slot,
      (ieee802154_transceiver_handle_receive_done env_ok frame_len_5 frame_info_11 (fun _ => 0)
        (ieee802154_transceiver_init env_ok 11 State.initial []).state
        (ieee802154_transceiver_init env_ok 11 State.initial []).trace).state.message_buffer
        = some { handle := hnd, size := sizeof_frame_data_t + 4, msgs := [slot] } ∧
      slot.data.frame_info.channel = 11 ∧
      slot.data.frame.take 5 = [5, 1, 2, 3, 4] := by
  refine ⟨by decide, by decide, ?_⟩
  obtain ⟨hnd, slot, h1, -, h3, h4, -, -⟩ :=
    relay_then_dispatch env_ok 11 State.initial [] frame_len_5 frame_info_11 (fun _ => 0)
      (by decide) (by decide)
  exact ⟨hnd, slot, h1, by rw [h3]; rfl, h4⟩

/-! ## Deinit -/

/-- C12: `ieee802154_transceiver_deinit` from every state. It deletes the task
if there is one and the queue if there is one, in that order, and leaves both
pointers `NULL`; it calls `esp_ieee802154_disable` exactly when
`radio_enabled` is true. With the radio not enabled it returns `ESP_OK` and
makes no driver call (on a state without task and queue it does nothing at
all); when disable succeeds it returns `ESP_OK` with `radio_enabled` false;
when disable fails it returns the driver's status and `radio_enabled` stays
true, task and queue being released already. No other global changes. -/
theorem deinit_contract {F : Type} (env : Env F) (s : State) (t : Trace F) :
    (s.radio_enabled = false →
      ieee802154_transceiver_deinit env s t
        = { ret := ESP_OK,
            state := { s with rx_task_handle := none, message_buffer := none },
            trace := t ++ release_calls s }) ∧
    (s.radio_enabled = true →
      env.driver (t ++ release_calls s) Call.esp_ieee802154_disable = ESP_OK →
      ieee802154_transceiver_deinit env s t
        = { ret := ESP_OK,
            state := { s with rx_task_handle := none, message_buffer := none,
                              radio_enabled := false },
            trace := t ++ release_calls s ++ [Call.esp_ieee802154_disable] }) ∧
    (s.radio_enabled = true →
      env.driver (t ++ release_calls s) Call.esp_ieee802154_disable ≠ ESP_OK →
      ieee802154_transceiver_deinit env s t
        = { ret := env.driver (t ++ release_calls s) Call.esp_ieee802154_disable,
            state := { s with rx_task_handle := none, message_buffer := none },
            trace := t ++ release_calls s ++ [Call.esp_ieee802154_disable] }) ∧
    (s.uninitialized →
      ieee802154_transceiver_deinit env s t = { ret := ESP_OK, state := s, trace := t }) ∧
    driver_calls (release_calls s : List (Call F)) = [] := by
  rcases s with ⟨mb, cb, ud, th, re, tb⟩
  refine ⟨?_, ?_, ?_, ?_, ?_⟩
  · intro hre
    simp only at hre
    subst hre
    cases mb <;> cases th <;> simp [ieee802154_transceiver_deinit, release_calls]
  · intro hre hd
    simp only at hre
    subst hre
    cases mb <;> cases th <;>
      simp_all [ieee802154_transceiver_deinit, release_calls]
  · intro hre hd
    simp only at hre
    subst hre
    cases mb <;> cases th <;>
      simp_all [ieee802154_transceiver_deinit, release_calls]
  · rintro ⟨h1, h2, h3⟩
    simp only at h1 h2 h3
    subst h1 h2 h3
    simp [ieee802154_transceiver_deinit]
  · cases mb <;> cases th <;> simp [release_calls, driver_calls, Call.isDriver]

/-- C12 on the globals after a successful init (task, queue and radio are all
released) and on the initial globals (nothing happens). -/
theorem deinit_contract_witness :
    ieee802154_transceiver_deinit env_ok state_listening []
      = { ret := ESP_OK,
          state := { state_listening with rx_task_handle := none, message_buffer := none,
                                          radio_enabled := false },
          trace := [] ++ release_calls state_listening ++ [Call.esp_ieee802154_disable] } ∧
    ieee802154_transceiver_deinit env_ok State.initial []
      = { ret := ESP_OK, state := State.initial, trace := [] } :=
  ⟨(deinit_contract env_ok state_listening []).2.1 (by decide) rfl,
   (deinit_contract env_ok State.initial []).2.2.2.1 ⟨rfl, rfl, rfl⟩⟩

/-! ## Transmit: the in-flight flag of the bridge -/

/-- The wait loop of the bridge is never left while the flag stays true. -/
theorem rx_callback_wait_stuck {F : Type} (n : Nat) :
    ∀ b : Bridge F, b.transmitting = true → rx_callback_wait n b = none := by
  induction n with
  | zero => intro b _; rfl
  | succ k ih =>
    intro b hb
    simp only [rx_callback_wait, hb, if_true]
    exact ih _ rfl

/-- C13: what the code does. The transceiver keeps no in-flight flag; the
bridge keeps `transmitting` and writes `true` to it only after
`ieee802154_transceiver_transmit_channel` has returned, whatever it returned.
(a) When the driver rejects the transmit, `ret` is `ESP_FAIL`, the flag is set
all the same, and the wait loop is never left. (b) When the driver accepts it,
the flag is still false once `esp_ieee802154_transmit` has been called; if the
completion interrupt is served at that point it clears a flag that was not
set, the flag is set afterwards, and the wait loop is never left. -/
theorem bridge_flag_set_after_transmit :
    ((rx_callback_send env_transmit_fails [3, 1, 2] bridge_listening).1 = ESP_FAIL ∧
      (rx_callback_send env_transmit_fails [3, 1, 2] bridge_listening).2.transmitting = false ∧
      (rx_callback_mark
        (rx_callback_send env_transmit_fails [3, 1, 2] bridge_listening).2).transmitting
          = true ∧
      ∀ n, rx_callback_wait n
        (rx_callback_mark (rx_callback_send env_transmit_fails [3, 1, 2] bridge_listening).2)
          = none) ∧
    ((rx_callback_send env_ok [3, 1, 2] bridge_listening).1 = ESP_OK ∧
      (rx_callback_send env_ok [3, 1, 2] bridge_listening).2.trace
        = [Call.esp_ieee802154_set_channel TX_CHANNEL,
           Call.esp_ieee802154_transmit [3, 1, 2] false] ∧
      (rx_callback_send env_ok [3, 1, 2] bridge_listening).2.transmitting = false ∧
      (rx_callback_mark (esp_ieee802154_transmit_done
        (rx_callback_send env_ok [3, 1, 2] bridge_listening).2)).transmitting = true ∧
      ∀ n, rx_callback_wait n
        (rx_callback_mark (esp_ieee802154_transmit_done
          (rx_callback_send env_ok [3, 1, 2] bridge_listening).2)) = none) :=
  ⟨⟨by decide, rfl, rfl, fun n => rx_callback_wait_stuck n _ rfl⟩,
   ⟨by decide, by decide, rfl, rfl, fun n => rx_callback_wait_stuck n _ rfl⟩⟩

/-- Sending from the bridge callback never writes the flag: during and right
after `ieee802154_transceiver_transmit_channel` it holds what it held before. -/
theorem rx_callback_send_keeps_flag {F : Type} (env : Env F) (frame : F) (b : Bridge F) :
    (rx_callback_send env frame b).2.transmitting = b.transmitting :=
  rfl

/-! ## Transmit: the calls made -/

/-- C14: for a non-NULL frame that the encoder accepts (it returns a non-zero
length), with `buf` the encoder's output over 128 zero bytes.
`ieee802154_transceiver_transmit` makes exactly one call,
`esp_ieee802154_transmit(buf, false)`, and returns its status.
`ieee802154_transceiver_transmit_channel` on a channel in [11,26] calls
`esp_ieee802154_set_channel(channel)` first; if that fails it returns its
status and calls nothing more; otherwise it calls
`esp_ieee802154_transmit(buf, false)`, returns its status and calls nothing
after it. In every case the only global that changes is the transmit buffer,
which holds `buf`. -/
theorem transmit_call_sequence {F : Type} (env : Env F) (f : F) (channel : Nat) (s : State)
    (t : Trace F)
    (hlen : (env.ieee802154_frame_build f (List.replicate MAX_FRAME_LEN 0)).1 ≠ 0) :
    ieee802154_transceiver_transmit env (some f) s t
      = { ret := env.driver t (Call.esp_ieee802154_transmit
            (env.ieee802154_frame_build f (List.replicate MAX_FRAME_LEN 0)).2 false),
          state := { s with transmit_buffer :=
            (env.ieee802154_frame_build f (List.replicate MAX_FRAME_LEN 0)).2 },
          trace := t ++ [Call.esp_ieee802154_transmit
            (env.ieee802154_frame_build f (List.replicate MAX_FRAME_LEN 0)).2 false] } ∧
    (valid_channel channel →
      (env.driver t (Call.esp_ieee802154_set_channel channel) ≠ ESP_OK →
        ieee802154_transceiver_transmit_channel env (some f) channel s t
          = { ret := env.driver t (Call.esp_ieee802154_set_channel channel),
              state := { s with transmit_buffer :=
                (env.ieee802154_frame_build f (List.replicate MAX_FRAME_LEN 0)).2 },
              trace := t ++ [Call.esp_ieee802154_set_channel channel] }) ∧
      (env.driver t (Call.esp_ieee802154_set_channel channel) = ESP_OK →
        ieee802154_transceiver_transmit_channel env (some f) channel s t
          = { ret := env.driver (t ++ [Call.esp_ieee802154_set_channel channel])
                (Call.esp_ieee802154_transmit
                  (env.ieee802154_frame_build f (List.replicate MAX_FRAME_LEN 0)).2 false),
              state := { s with transmit_buffer :=
                (env.ieee802154_frame_build f (List.replicate MAX_FRAME_LEN 0)).2 },
              trace := t ++ [Call.esp_ieee802154_set_channel channel,
                Call.esp_ieee802154_transmit
                  (env.ieee802154_frame_build f (List.replicate MAX_FRAME_LEN 0)).2 false] })) := by
  constructor
  · simp only [ieee802154_transceiver_transmit, transmit_channel, Bool.false_eq_true,
      false_and, if_false, hlen]
    split_ifs with h1
    · rfl
    · have h2 : env.driver t (Call.esp_ieee802154_transmit
          (env.ieee802154_frame_build f (List.replicate MAX_FRAME_LEN 0)).2 false) = ESP_OK := by
        simpa using h1
      rw [h2]
  · intro hc
    have hch : ¬ (channel < 11 ∨ channel > 26) := by
      unfold valid_channel at hc; omega
    constructor
    · intro h1
      simp [ieee802154_transceiver_transmit_channel, transmit_channel, hch, hlen, h1]
    · intro h1
      simp only [ieee802154_transceiver_transmit_channel, transmit_channel, hch, and_false,
        if_false, hlen, if_true, h1, ne_eq, not_true_eq_false, List.append_assoc,
        List.singleton_append]
      split_ifs with h2
      · rw [h2]
      · rfl

/-- C14 with the frame `[3, 1, 2]` and channel 13, everything succeeding. -/
theorem transmit_call_sequence_witness :
    (ieee802154_transceiver_transmit env_ok (some [3, 1, 2]) state_listening []).trace
      = [Call.esp_ieee802154_transmit [3, 1, 2] false] ∧
    (ieee802154_transceiver_transmit_channel env_ok (some [3, 1, 2]) 13 state_listening []).trace
      = [Call.esp_ieee802154_set_channel 13, Call.esp_ieee802154_transmit [3, 1, 2] false] :=
  ⟨congrArg Out.trace
      (transmit_call_sequence env_ok [3, 1, 2] 13 state_listening [] (by decide)).1,
   congrArg Out.trace
      (((transmit_call_sequence env_ok [3, 1, 2] 13 state_listening [] (by decide)).2
        (by decide)).2 rfl)⟩

/-! ## The invariant between calls -/

/-- Deinit always leaves `rx_task_handle` `NULL`. -/
theorem deinit_task_none {F : Type} (env : Env F) (s : State) (t : Trace F) :
    (ieee802154_transceiver_deinit env s t).state.rx_task_handle = none := by
  rcases s with ⟨mb, cb, ud, th, re, tb⟩
  cases mb <;> cases th <;> cases re <;>
    simp only [ieee802154_transceiver_deinit, Bool.false_eq_true, if_false, if_true] <;>
    first
      | rfl
      | (split_ifs <;> rfl)

/-- Init keeps the invariant, whatever it returns. -/
theorem init_keeps_task_has_queue {F : Type} (env : Env F) (channel : Nat) (s : State)
    (t : Trace F) (h : task_has_queue s) :
    task_has_queue (ieee802154_transceiver_init env channel s t).state := by
  by_cases hc : valid_channel channel
  · rcases hff : first_failure env t (init_calls channel) with _ | ⟨t', c⟩
    · obtain ⟨qh, th, e⟩ := init_success env channel s t hc hff
      rw [e]
      intro _
      exact ⟨by simp, rfl⟩
    · have hr := (init_first_failure env channel s t t' c hc hff).2.2.1
      intro hne
      exact absurd hr hne
  · have hch : channel < 11 ∨ channel > 26 := by
      unfold valid_channel at hc; omega
    simpa [ieee802154_transceiver_init, hch] using h

/-- The transmit functions write no global but the transmit buffer. -/
theorem transmit_channel_globals {F : Type} (env : Env F) (frame : Option F) (channel : Nat)
    (change_channel : Bool) (s : State) (t : Trace F) :
    ∃ buf, (transmit_channel env frame channel change_channel s t).state
      = { s with transmit_buffer := buf } := by
  cases frame with
  | none => exact ⟨s.transmit_buffer, rfl⟩
  | some f =>
    simp only [transmit_channel]
    split_ifs
    · exact ⟨s.transmit_buffer, rfl⟩
    all_goals exact ⟨_, rfl⟩

/-- The handler keeps an absent queue absent and a present queue present, and
writes no other global. -/
theorem handle_receive_done_globals {F : Type} (env : Env F) (frame : HwFrame)
    (frame_info : esp_ieee802154_frame_info_t) (uninit : Nat → Nat) (s : State) (t : Trace F) :
    ∃ q, (ieee802154_transceiver_handle_receive_done env frame frame_info uninit s t).state
        = { s with message_buffer := q } ∧ (q = none ↔ s.message_buffer = none) := by
  rcases hmb : s.message_buffer with _ | mb
  · refine ⟨none, ?_, by simp⟩
    simp only [ieee802154_transceiver_handle_receive_done, hmb]
    cases s
    simp_all
  · refine ⟨some (xMessageBufferSendFromISR mb
      (frame_data_t.mk (memcpy ((List.range MAX_FRAME_LEN).map uninit) frame.byte
        (frame.byte 0)).1 frame_info) sizeof_frame_data_t).2, ?_, by simp⟩
    simp only [ieee802154_transceiver_handle_receive_done, hmb]

/-- Every public call keeps the invariant. -/
theorem op_keeps_task_has_queue {F : Type} (env : Env F) (op : Op F) (s : State) (t : Trace F)
    (h : task_has_queue s) : task_has_queue (op.run env s t).1 := by
  cases op with
  | init channel => exact init_keeps_task_has_queue env channel s t h
  | deinit =>
    intro hne
    exact absurd (deinit_task_none env s t) hne
  | set_rx_callback callback user_data => exact h
  | set_channel channel =>
    simp only [Op.run, ieee802154_transceiver_set_channel]
    split_ifs <;> exact h
  | transmit frame =>
    obtain ⟨buf, e⟩ := transmit_channel_globals env frame (Int.toNat ((-1 : Int) % 256)) false s t
    simp only [Op.run, ieee802154_transceiver_transmit, e]
    exact h
  | transmit_channel frame channel =>
    obtain ⟨buf, e⟩ := transmit_channel_globals env frame channel true s t
    simp only [Op.run, ieee802154_transceiver_transmit_channel, e]
    exact h
  | handle_receive_done frame frame_info uninit =>
    obtain ⟨q, e, hq⟩ := handle_receive_done_globals env frame frame_info uninit s t
    simp only [Op.run, e]
    intro hne
    obtain ⟨h1, h2⟩ := h hne
    exact ⟨fun hq0 => h1 (hq.mp hq0), h2⟩

/-- Every sequence of public calls keeps the invariant. -/
theorem run_ops_keeps_task_has_queue {F : Type} (env : Env F) (ops : List (Op F)) :
    ∀ (s : State) (t : Trace F), task_has_queue s → task_has_queue (run_ops env ops s t).1 := by
  induction ops with
  | nil => intro s t h; exact h
  | cons op rest ih =>
    intro s t h
    simp only [run_ops]
    exact ih _ _ (op_keeps_task_has_queue env op s t h)

/-- The three globals between calls: after every finite sequence of public
calls from the initial globals, whatever the driver and FreeRTOS answer, a
non-NULL `rx_task_handle` comes with a non-NULL `message_buffer` and
`radio_enabled` true, and a pass of the dispatch loop started at such a point
finds a queue. This speaks of the task `rx_task_handle` points to only. -/
theorem task_never_without_queue {F : Type} (env : Env F) (ops : List (Op F)) :
    task_has_queue (run_ops env ops State.initial []).1 ∧
    ((run_ops env ops State.initial []).1.rx_task_handle ≠ none →
      (receive_packet_task_iteration env (run_ops env ops State.initial []).1
        (run_ops env ops State.initial []).2).isSome = true) := by
  have hinv := run_ops_keeps_task_has_queue env ops State.initial []
    (fun hne => absurd rfl hne)
  refine ⟨hinv, fun hne => ?_⟩
  obtain ⟨hq, -⟩ := hinv hne
  obtain ⟨mb, hmb⟩ := Option.ne_none_iff_exists'.mp hq
  simp only [receive_packet_task_iteration, hmb]
  split
  · rfl
  · split_ifs
    · rfl
    · split <;> rfl

/-- After init, a channel change and a second init without deinit, all
succeeding: `rx_task_handle` is non-NULL, and the next pass of the dispatch
loop finds a queue. -/
theorem task_never_without_queue_witness :
    (run_ops env_ok [Op.init 11, Op.set_channel 12, Op.init 11]
      State.initial []).1.rx_task_handle ≠ none ∧
    (receive_packet_task_iteration env_ok
      (run_ops env_ok [Op.init 11, Op.set_channel 12, Op.init 11] State.initial []).1
      (run_ops env_ok [Op.init 11, Op.set_channel 12, Op.init 11] State.initial []).2).isSome
        = true :=
  ⟨by decide,
   (task_never_without_queue env_ok [Op.init 11, Op.set_channel 12, Op.init 11]).2 (by decide)⟩

/-- C15: the code breaks it. Init, init again without deinit, then deinit, every
call succeeding and every handle fresh. The second init overwrites
`rx_task_handle` (207, then 215) without deleting the first task, so two tasks
exist; deinit deletes only task 215 and the queue. Afterwards
`rx_task_handle` and `message_buffer` are both `NULL`, task 207 still exists,
and its next pass of the dispatch loop reads through the `NULL` queue. -/
theorem double_init_leaves_task_without_queue :
    (run_ops env_fresh [Op.init 11, Op.init 11] State.initial []).1.rx_task_handle
      = some 215 ∧
    tasks_alive env_fresh (run_ops env_fresh [Op.init 11, Op.init 11] State.initial []).2
      = [207, 215] ∧
    (run_ops env_fresh [Op.init 11, Op.init 11, Op.deinit] State.initial []).1.rx_task_handle
      = none ∧
    (run_ops env_fresh [Op.init 11, Op.init 11, Op.deinit] State.initial []).1.message_buffer
      = none ∧
    tasks_alive env_fresh
      (run_ops env_fresh [Op.init 11, Op.init 11, Op.deinit] State.initial []).2 = [207] ∧
    receive_packet_task_iteration env_fresh
      (run_ops env_fresh [Op.init 11, Op.init 11, Op.deinit] State.initial []).1
      (run_ops env_fresh [Op.init 11, Op.init 11, Op.deinit] State.initial []).2 = none := by
  refine ⟨by decide, by decide, by decide, by decide, by decide, ?_⟩
  have h : (run_ops env_fresh [Op.init 11, Op.init 11, Op.deinit]
      State.initial []).1.message_buffer = none := by decide
  simp only [receive_packet_task_iteration, h]

end Ieee802154
